import Mathlib

set_option autoImplicit false

/-!
# gencolormap: the command-line front end (`cmdline.cpp`)

A shallow embedding of `main` of `cmdline.cpp`: option parsing, validation,
per-family defaulting of parameters, the dispatch to one `ColorMap` generator and
the serialisation of the result.

What `cmdline.cpp` only uses but does not define is taken as a parameter:

* the C library (`atoi`, `atof`, `sscanf`, single and double precision numbers and
  the two tests the program applies to them) is a `Libc`;
* the library behind `colormap.hpp` and `export.hpp` (default constants, the
  thirteen generators, the three serialisers) is a `ColorMap`.

`getopt_long` is represented by the sequence of its results: what it writes to
standard error itself is not part of the model. The vector `colormap` is
represented by its contents: its constructor fails when the requested size
exceeds `max_size()`, and then the process is aborted; for a smaller size the
storage is taken to be available.
-/

namespace GenColorMap

/-! ## Enumerations -/

/-- The colour map families: `enum type` of `cmdline.cpp`. -/
inductive type
  | brewer_seq
  | brewer_div
  | brewer_qual
  | puseq_lightness
  | puseq_saturation
  | puseq_rainbow
  | puseq_blackbody
  | pudiv_lightness
  | pudiv_saturation
  | puqual_hue
  | cubehelix
  | moreland
  | mcnames
  deriving DecidableEq, Repr, Fintype

/-- The output formats: `enum format` of `cmdline.cpp`. -/
inductive format
  | csv
  | json
  | ppm
  deriving DecidableEq, Repr

/-- The value returned by one call of `getopt_long`: one of the option letters of
the option string `"vHf:t:n:h:d:c:s:b:w:l:T:R:r:g:A:O:p:"`, or anything else
(`other`, for instance `?` for an unknown option or a missing argument). -/
inductive OptChar
  | v | H | f | t | n | h | d | c | s | b | w | l | r | T | R | g | A | O | p
  | other
  deriving DecidableEq, Repr

/-- One result of `getopt_long`: the returned letter and the value of `optarg`. -/
structure GetoptResult where
  c : OptChar
  optarg : String
  deriving DecidableEq, Repr

/-! ## Machine integers -/

/-- The value of an `int` expression whose mathematical value is `x`, on a machine
with 32-bit two's complement `int` (overflow wraps). -/
def wrapInt32 (x : Int) : Int :=
  (x + 2147483648) % 4294967296 - 2147483648

/-- Conversion of an `int` to the 64-bit `size_t`. -/
def toSizeT (x : Int) : Nat :=
  (x % 18446744073709551616).toNat

/-! ## The C library -/

/-- What `main` uses of the C library. `D` is `double`, `F` is `float`.

* `atoi`, `atof` are the functions of that name; `atoi` returns an `int`;
* `toFloat d` is the conversion of the assignment `float x = d`;
* `degToRad d` is `float x = d * M_PI / 180.0`;
* `minusOne` and `NAN` are the initial values `-1.0f` and `NAN`;
* `ltZero x` is `x < 0.0f`, `isnan x` is `std::isnan(x)`;
* `sscanf_hhu3 s` is the list of the values that
  `sscanf(s, "%hhu,%hhu,%hhu", ...)` stores, in order (at most three). -/
structure Libc (D F : Type) where
  atoi : String → Int
  atoi_range : ∀ s, -2147483648 ≤ atoi s ∧ atoi s ≤ 2147483647
  atof : String → D
  toFloat : D → F
  degToRad : D → F
  minusOne : F
  NAN : F
  ltZero : F → Bool
  isnan : F → Bool
  ltZero_minusOne : ltZero minusOne = true
  isnan_NAN : isnan NAN = true
  sscanf_hhu3 : String → List Nat

/-! ## The ColorMap library -/

/-- One invocation of a generator of `colormap.hpp`, with its arguments in the
order of the call in `main` (the buffer pointer apart). The bytes of the Moreland
colours are `none` where `main` passes an array element it never wrote. -/
inductive Call (F : Type)
  | BrewerSequential (n : Int) (hue contrast saturation brightness warmth : F)
  | BrewerDiverging (n : Int) (hue divergence contrast saturation brightness warmth : F)
  | BrewerQualitative (n : Int) (hue divergence contrast saturation brightness : F)
  | PUSequentialLightness (n : Int) (lightnessRange saturationRange saturation hue : F)
  | PUSequentialSaturation (n : Int) (saturationRange lightness saturation hue : F)
  | PUSequentialRainbow (n : Int) (lightnessRange saturationRange hue rotations saturation : F)
  | PUSequentialBlackBody (n : Int) (temperature range saturation : F)
  | PUDivergingLightness (n : Int) (lightnessRange saturationRange saturation hue divergence : F)
  | PUDivergingSaturation (n : Int) (saturationRange lightness saturation hue divergence : F)
  | PUQualitativeHue (n : Int) (hue divergence lightness saturation : F)
  | CubeHelix (n : Int) (hue rotations saturation gamma : F)
  | Moreland (n : Int) (r0 g0 b0 r1 g1 b1 : Option Nat)
  | McNames (n : Int) (periods : F)
  deriving DecidableEq, Repr

/-- The namespace `ColorMap` of `colormap.hpp` and `export.hpp`, as far as `main`
uses it: the default constants, the generators and the serialisers.

`generate call buffer` is the effect of the generator invocation `call` on the
vector `buffer` it is handed: the new contents of the vector and the returned
number of clipped colours. -/
structure ColorMap (F : Type) where
  BrewerSequentialDefaultHue : F
  BrewerSequentialDefaultContrast : F
  BrewerSequentialDefaultContrastForSmallN : Int → F
  BrewerSequentialDefaultSaturation : F
  BrewerSequentialDefaultBrightness : F
  BrewerSequentialDefaultWarmth : F
  BrewerDivergingDefaultHue : F
  BrewerDivergingDefaultDivergence : F
  BrewerDivergingDefaultContrast : F
  BrewerDivergingDefaultContrastForSmallN : Int → F
  BrewerDivergingDefaultSaturation : F
  BrewerDivergingDefaultBrightness : F
  BrewerDivergingDefaultWarmth : F
  BrewerQualitativeDefaultHue : F
  BrewerQualitativeDefaultDivergence : F
  BrewerQualitativeDefaultContrast : F
  BrewerQualitativeDefaultSaturation : F
  BrewerQualitativeDefaultBrightness : F
  PUSequentialLightnessDefaultLightnessRange : F
  PUSequentialLightnessDefaultSaturation : F
  PUSequentialLightnessDefaultHue : F
  PUSequentialSaturationDefaultSaturationRange : F
  PUSequentialSaturationDefaultLightness : F
  PUSequentialSaturationDefaultSaturation : F
  PUSequentialSaturationDefaultHue : F
  PUSequentialRainbowDefaultLightnessRange : F
  PUSequentialRainbowDefaultHue : F
  PUSequentialRainbowDefaultRotations : F
  PUSequentialRainbowDefaultSaturation : F
  PUSequentialBlackBodyDefaultTemperature : F
  PUSequentialBlackBodyDefaultRange : F
  PUSequentialBlackBodyDefaultSaturation : F
  PUDivergingLightnessDefaultLightnessRange : F
  PUDivergingLightnessDefaultSaturation : F
  PUDivergingLightnessDefaultHue : F
  PUDivergingLightnessDefaultDivergence : F
  PUDivergingSaturationDefaultSaturationRange : F
  PUDivergingSaturationDefaultLightness : F
  PUDivergingSaturationDefaultSaturation : F
  PUDivergingSaturationDefaultHue : F
  PUDivergingSaturationDefaultDivergence : F
  PUQualitativeHueDefaultHue : F
  PUQualitativeHueDefaultDivergence : F
  PUQualitativeHueDefaultLightness : F
  PUQualitativeHueDefaultSaturation : F
  CubeHelixDefaultHue : F
  CubeHelixDefaultRotations : F
  CubeHelixDefaultSaturation : F
  CubeHelixDefaultGamma : F
  MorelandDefaultR0 : Nat
  MorelandDefaultG0 : Nat
  MorelandDefaultB0 : Nat
  MorelandDefaultR1 : Nat
  MorelandDefaultG1 : Nat
  MorelandDefaultB1 : Nat
  McNamesDefaultPeriods : F
  generate : Call F → List Nat → List Nat × Int
  ToCSV : Int → List Nat → String
  ToJSON : Int → List Nat → String
  ToPPM : Int → List Nat → String

/-! ## The local variables of `main` -/

/-- An `unsigned char [3]` array of `main`; `none` is an element not yet written. -/
structure Color where
  c0 : Option Nat
  c1 : Option Nat
  c2 : Option Nat
  deriving DecidableEq, Repr

/-- The local variables of `main` that the option loop writes. In `format` and
`type`, `none` stands for the value `-1`. -/
structure Vars (F : Type) where
  print_version : Bool
  print_help : Bool
  format : Option format
  type : Option type
  n : Int
  hue : F
  divergence : F
  contrast : F
  saturation : F
  brightness : F
  warmth : F
  lightness : F
  rotations : F
  temperature : F
  range : F
  gamma : F
  have_color0 : Bool
  color0 : Color
  have_color1 : Bool
  color1 : Color
  periods : F

/-- The initialisers of the local variables (lines 62 to 82). -/
def Vars.init {D F : Type} (L : Libc D F) : Vars F where
  print_version := false
  print_help := false
  format := some format.csv
  type := some type.brewer_seq
  n := 256
  hue := L.minusOne
  divergence := L.minusOne
  contrast := L.minusOne
  saturation := L.minusOne
  brightness := L.minusOne
  warmth := L.minusOne
  lightness := L.minusOne
  rotations := L.NAN
  temperature := L.minusOne
  range := L.minusOne
  gamma := L.minusOne
  have_color0 := false
  color0 := ⟨none, none, none⟩
  have_color1 := false
  color1 := ⟨none, none, none⟩
  periods := L.NAN

/-! ## The option loop -/

/-- The `strcmp` chain of `case 'f'` (lines 118 to 121). -/
def formatOfArg (optarg : String) : Option format :=
  if optarg = "csv" then some format.csv
  else if optarg = "json" then some format.json
  else if optarg = "ppm" then some format.ppm
  else none

/-- The `strcmp` chain of `case 't'` (lines 124 to 137). -/
def typeOfArg (optarg : String) : Option type :=
  if optarg = "brewer-sequential" then some type.brewer_seq
  else if optarg = "brewer-diverging" then some type.brewer_div
  else if optarg = "brewer-qualitative" then some type.brewer_qual
  else if optarg = "pusequential-lightness" then some type.puseq_lightness
  else if optarg = "pusequential-saturation" then some type.puseq_saturation
  else if optarg = "pusequential-rainbow" then some type.puseq_rainbow
  else if optarg = "pusequential-blackbody" then some type.puseq_blackbody
  else if optarg = "pudiverging-lightness" then some type.pudiv_lightness
  else if optarg = "pudiverging-saturation" then some type.pudiv_saturation
  else if optarg = "puqualitative-hue" then some type.puqual_hue
  else if optarg = "cubehelix" then some type.cubehelix
  else if optarg = "moreland" then some type.moreland
  else if optarg = "mcnames" then some type.mcnames
  else none

/-- The effect of `sscanf(optarg, "%hhu,%hhu,%hhu", a + 0, a + 1, a + 2)` on the
array `a`, given the values the call stores: elements for which nothing was
converted keep their content. -/
def Color.store (a : Color) : List Nat → Color
  | [] => a
  | [x] => { a with c0 := some (x % 256) }
  | [x, y] => { a with c0 := some (x % 256), c1 := some (y % 256) }
  | x :: y :: z :: _ => ⟨some (x % 256), some (y % 256), some (z % 256)⟩

/-- The body of the option loop, the `switch (c)` of lines 110 to 188: the
variables after one result of `getopt_long`, or `none` for `return 1`. -/
def step {D F : Type} (L : Libc D F) (s : Vars F) (o : GetoptResult) : Option (Vars F) :=
  match o.c with
  | .v => some { s with print_version := true }
  | .H => some { s with print_help := true }
  | .f => some { s with format := formatOfArg o.optarg }
  | .t => some { s with type := typeOfArg o.optarg }
  | .n => some { s with n := L.atoi o.optarg }
  | .h => some { s with hue := L.degToRad (L.atof o.optarg) }
  | .d => some { s with divergence := L.degToRad (L.atof o.optarg) }
  | .c => some { s with contrast := L.toFloat (L.atof o.optarg) }
  | .s => some { s with saturation := L.toFloat (L.atof o.optarg) }
  | .b => some { s with brightness := L.toFloat (L.atof o.optarg) }
  | .w => some { s with warmth := L.toFloat (L.atof o.optarg) }
  | .l => some { s with lightness := L.toFloat (L.atof o.optarg) }
  | .r => some { s with rotations := L.toFloat (L.atof o.optarg) }
  | .T => some { s with temperature := L.toFloat (L.atof o.optarg) }
  | .R => some { s with range := L.toFloat (L.atof o.optarg) }
  | .g => some { s with gamma := L.toFloat (L.atof o.optarg) }
  | .A => some { s with color0 := s.color0.store (L.sscanf_hhu3 o.optarg), have_color0 := true }
  | .O => some { s with color1 := s.color1.store (L.sscanf_hhu3 o.optarg), have_color1 := true }
  | .p => some { s with periods := L.toFloat (L.atof o.optarg) }
  | .other => none

/-- The loop `for (;;)` of lines 106 to 189 over the results of `getopt_long`. -/
def parseLoop {D F : Type} (L : Libc D F) : Vars F → List GetoptResult → Option (Vars F)
  | s, [] => some s
  | s, o :: rest =>
    match step L s o with
    | none => none
    | some s1 => parseLoop L s1 rest

/-! ## Defaults -/

section defaults

variable {D F : Type} (L : Libc D F) (E : ColorMap F)

/-- Lines 264 to 285: the default of `hue`. -/
def resolveHue (t : type) (hue : F) : F :=
  if L.ltZero hue then
    match t with
    | .brewer_seq => E.BrewerSequentialDefaultHue
    | .brewer_div => E.BrewerDivergingDefaultHue
    | .brewer_qual => E.BrewerQualitativeDefaultHue
    | .puseq_lightness => E.PUSequentialLightnessDefaultHue
    | .puseq_saturation => E.PUSequentialSaturationDefaultHue
    | .puseq_rainbow => E.PUSequentialRainbowDefaultHue
    | .pudiv_lightness => E.PUDivergingLightnessDefaultHue
    | .pudiv_saturation => E.PUDivergingSaturationDefaultHue
    | .puqual_hue => E.PUQualitativeHueDefaultHue
    | .cubehelix => E.CubeHelixDefaultHue
    | .puseq_blackbody => hue
    | .moreland => hue
    | .mcnames => hue
  else hue

/-- Lines 286 to 297: the default of `divergence`. -/
def resolveDivergence (t : type) (divergence : F) : F :=
  if L.ltZero divergence then
    match t with
    | .brewer_div => E.BrewerDivergingDefaultDivergence
    | .brewer_qual => E.BrewerQualitativeDefaultDivergence
    | .pudiv_lightness => E.PUDivergingLightnessDefaultDivergence
    | .pudiv_saturation => E.PUDivergingSaturationDefaultDivergence
    | .puqual_hue => E.PUQualitativeHueDefaultDivergence
    | _ => divergence
  else divergence

/-- Lines 298 to 307: the default of `contrast`. -/
def resolveContrast (t : type) (n : Int) (contrast : F) : F :=
  if L.ltZero contrast then
    match t with
    | .brewer_seq =>
      if n ≤ 9 then E.BrewerSequentialDefaultContrastForSmallN n
      else E.BrewerSequentialDefaultContrast
    | .brewer_div =>
      if n ≤ 9 then E.BrewerDivergingDefaultContrastForSmallN n
      else E.BrewerDivergingDefaultContrast
    | .brewer_qual => E.BrewerQualitativeDefaultContrast
    | _ => contrast
  else contrast

/-- Lines 308 to 331: the default of `saturation`. -/
def resolveSaturation (t : type) (saturation : F) : F :=
  if L.ltZero saturation then
    match t with
    | .brewer_seq => E.BrewerSequentialDefaultSaturation
    | .brewer_div => E.BrewerDivergingDefaultSaturation
    | .brewer_qual => E.BrewerQualitativeDefaultSaturation
    | .puseq_lightness => E.PUSequentialLightnessDefaultSaturation
    | .puseq_saturation => E.PUSequentialSaturationDefaultSaturation
    | .puseq_rainbow => E.PUSequentialRainbowDefaultSaturation
    | .puseq_blackbody => E.PUSequentialBlackBodyDefaultSaturation
    | .pudiv_lightness => E.PUDivergingLightnessDefaultSaturation
    | .pudiv_saturation => E.PUDivergingSaturationDefaultSaturation
    | .puqual_hue => E.PUQualitativeHueDefaultSaturation
    | .cubehelix => E.CubeHelixDefaultSaturation
    | .moreland => saturation
    | .mcnames => saturation
  else saturation

/-- Lines 332 to 339: the default of `brightness`. -/
def resolveBrightness (t : type) (brightness : F) : F :=
  if L.ltZero brightness then
    match t with
    | .brewer_seq => E.BrewerSequentialDefaultBrightness
    | .brewer_div => E.BrewerDivergingDefaultBrightness
    | .brewer_qual => E.BrewerQualitativeDefaultBrightness
    | _ => brightness
  else brightness

/-- Lines 340 to 345: the default of `warmth`. -/
def resolveWarmth (t : type) (warmth : F) : F :=
  if L.ltZero warmth then
    match t with
    | .brewer_seq => E.BrewerSequentialDefaultWarmth
    | .brewer_div => E.BrewerDivergingDefaultWarmth
    | _ => warmth
  else warmth

/-- Lines 346 to 353: the default of `lightness`. -/
def resolveLightness (t : type) (lightness : F) : F :=
  if L.ltZero lightness then
    match t with
    | .puseq_saturation => E.PUSequentialSaturationDefaultLightness
    | .pudiv_saturation => E.PUDivergingSaturationDefaultLightness
    | .puqual_hue => E.PUQualitativeHueDefaultLightness
    | _ => lightness
  else lightness

/-- Lines 354 to 359: the default of `rotations`. -/
def resolveRotations (t : type) (rotations : F) : F :=
  if L.isnan rotations then
    match t with
    | .puseq_rainbow => E.PUSequentialRainbowDefaultRotations
    | .cubehelix => E.CubeHelixDefaultRotations
    | _ => rotations
  else rotations

/-- Lines 360 to 363: the default of `temperature`. -/
def resolveTemperature (t : type) (temperature : F) : F :=
  if L.ltZero temperature then
    match t with
    | .puseq_blackbody => E.PUSequentialBlackBodyDefaultTemperature
    | _ => temperature
  else temperature

/-- Lines 364 to 377: the default of `range`. -/
def resolveRange (t : type) (range : F) : F :=
  if L.ltZero range then
    match t with
    | .puseq_lightness => E.PUSequentialLightnessDefaultLightnessRange
    | .puseq_saturation => E.PUSequentialSaturationDefaultSaturationRange
    | .puseq_rainbow => E.PUSequentialRainbowDefaultLightnessRange
    | .pudiv_lightness => E.PUDivergingLightnessDefaultLightnessRange
    | .pudiv_saturation => E.PUDivergingSaturationDefaultSaturationRange
    | .puseq_blackbody => E.PUSequentialBlackBodyDefaultRange
    | _ => range
  else range

/-- Lines 378 to 381: the default of `gamma`. -/
def resolveGamma (t : type) (gamma : F) : F :=
  if L.ltZero gamma then
    match t with
    | .cubehelix => E.CubeHelixDefaultGamma
    | _ => gamma
  else gamma

/-- Lines 382 to 388: the default of `color0`. -/
def resolveColor0 (t : type) (have_color0 : Bool) (color0 : Color) : Color :=
  if !have_color0 then
    match t with
    | .moreland =>
      ⟨some E.MorelandDefaultR0, some E.MorelandDefaultG0, some E.MorelandDefaultB0⟩
    | _ => color0
  else color0

/-- Lines 389 to 395: the default of `color1`. -/
def resolveColor1 (t : type) (have_color1 : Bool) (color1 : Color) : Color :=
  if !have_color1 then
    match t with
    | .moreland =>
      ⟨some E.MorelandDefaultR1, some E.MorelandDefaultG1, some E.MorelandDefaultB1⟩
    | _ => color1
  else color1

/-- Lines 396 to 399: the default of `periods`. -/
def resolvePeriods (t : type) (periods : F) : F :=
  if L.isnan periods then
    match t with
    | .mcnames => E.McNamesDefaultPeriods
    | _ => periods
  else periods

/-- Lines 264 to 399: the variables after the defaults have been filled in, for
the value `t` of `type`. -/
def applyDefaults (t : type) (s : Vars F) : Vars F :=
  { s with
    hue := resolveHue L E t s.hue
    divergence := resolveDivergence L E t s.divergence
    contrast := resolveContrast L E t s.n s.contrast
    saturation := resolveSaturation L E t s.saturation
    brightness := resolveBrightness L E t s.brightness
    warmth := resolveWarmth L E t s.warmth
    lightness := resolveLightness L E t s.lightness
    rotations := resolveRotations L E t s.rotations
    temperature := resolveTemperature L E t s.temperature
    range := resolveRange L E t s.range
    gamma := resolveGamma L E t s.gamma
    color0 := resolveColor0 E t s.have_color0 s.color0
    color1 := resolveColor1 E t s.have_color1 s.color1
    periods := resolvePeriods L E t s.periods }

end defaults

/-! ## Dispatch and output -/

/-- The `switch (type)` of lines 403 to 448: the generator invocation. -/
def dispatch {F : Type} (t : type) (s : Vars F) : Call F :=
  match t with
  | .brewer_seq =>
    .BrewerSequential s.n s.hue s.contrast s.saturation s.brightness s.warmth
  | .brewer_div =>
    .BrewerDiverging s.n s.hue s.divergence s.contrast s.saturation s.brightness s.warmth
  | .brewer_qual =>
    .BrewerQualitative s.n s.hue s.divergence s.contrast s.saturation s.brightness
  | .puseq_lightness =>
    .PUSequentialLightness s.n s.range s.range s.saturation s.hue
  | .puseq_saturation =>
    .PUSequentialSaturation s.n s.range s.lightness s.saturation s.hue
  | .puseq_rainbow =>
    .PUSequentialRainbow s.n s.range s.range s.hue s.rotations s.saturation
  | .puseq_blackbody =>
    .PUSequentialBlackBody s.n s.temperature s.range s.saturation
  | .pudiv_lightness =>
    .PUDivergingLightness s.n s.range s.range s.saturation s.hue s.divergence
  | .pudiv_saturation =>
    .PUDivergingSaturation s.n s.range s.lightness s.saturation s.hue s.divergence
  | .puqual_hue =>
    .PUQualitativeHue s.n s.hue s.divergence s.lightness s.saturation
  | .cubehelix =>
    .CubeHelix s.n s.hue s.rotations s.saturation s.gamma
  | .moreland =>
    .Moreland s.n s.color0.c0 s.color0.c1 s.color0.c2 s.color1.c0 s.color1.c1 s.color1.c2
  | .mcnames =>
    .McNames s.n s.periods

/-- Line 401, `std::vector<unsigned char> colormap(3 * n)`: the number of elements
requested. The product is an `int`, converted to `size_t`. -/
def colormapSize (n : Int) : Nat :=
  toSizeT (wrapInt32 (3 * n))

/-- The value of `max_size()` of `std::vector<unsigned char>` on a 64-bit target,
`PTRDIFF_MAX`: for a larger size the constructor throws `std::length_error`. -/
def vectorMaxSize : Nat :=
  9223372036854775807

/-- Lines 450 to 457: the serialiser selected by `format`. -/
def serialize {F : Type} (E : ColorMap F) (fmt : format) (n : Int) (colormap : List Nat) :
    String :=
  if fmt = format.csv then E.ToCSV n colormap
  else if fmt = format.json then E.ToJSON n colormap
  else E.ToPPM n colormap

/-- What `fputs(s.c_str(), stdout)` writes: the characters of `s` before its first
NUL. -/
def fputs (s : String) : String :=
  String.mk (s.data.takeWhile (fun ch => decide (ch ≠ Char.ofNat 0)))

/-- The text of `--version` (lines 192 to 197). -/
def versionText : String :=
  "gencolormap version 1.1\n" ++
  "https://marlam.de/gencolormap\n" ++
  "Copyright (C) 2019 Computer Graphics Group, University of Siegen.\n" ++
  "Written by Martin Lambers <martin.lambers@uni-siegen.de>.\n" ++
  "This is free software under the terms of the MIT/Expat License.\n" ++
  "There is NO WARRANTY, to the extent permitted by law.\n"

/-- The text of `--help` (lines 202 to 248), for the program name `argv0`. -/
def helpText (argv0 : String) : String :=
  "Usage: " ++ argv0 ++ " [option...]\n" ++
  "Generates a color map and prints it to standard output.\n" ++
  "Prints the number of colors that had to be clipped to standard error.\n" ++
  "Common options:\n" ++
  "  [-f|--format=csv|json|ppm]          Set output format\n" ++
  "  [-n|--n=N]                          Set number of colors in the map\n" ++
  "Brewer-like color maps:\n" ++
  "  [-t|--type=brewer-sequential]       Generate a sequential color map\n" ++
  "  [-t|--type=brewer-diverging]        Generate a diverging color map\n" ++
  "  [-t|--type=brewer-qualitative]      Generate a qualitative color map\n" ++
  "  [-h|--hue=H]                        Set default hue in [0,360] degrees\n" ++
  "  [-c|--contrast=C]                   Set contrast in [0,1]\n" ++
  "  [-s|--saturation=S]                 Set saturation in [0,1]\n" ++
  "  [-b|--brightness=B]                 Set brightness in [0,1]\n" ++
  "  [-w|--warmth=W]                     Set warmth in [0,1] for seq. and div. maps\n" ++
  "  [-d|--divergence=D]                 Set diverg. in deg for div. and qual. maps\n" ++
  "Perceptually uniform color maps:\n" ++
  "  [-t|--type=pusequential-lightness]  Sequential map, varying lightness\n" ++
  "  [-t|--type=pusequential-saturation] Sequential map, varying saturation\n" ++
  "  [-t|--type=pusequential-rainbow]    Sequential map, varying hue (rainbow)\n" ++
  "  [-t|--type=pusequential-blackbody]  Sequential map, varying hue (black body)\n" ++
  "  [-t|--type=pudiverging-lightness]   Diverging map, varying lightness\n" ++
  "  [-t|--type=pudiverging-saturation]  Diverging map, varying saturation\n" ++
  "  [-t|--type=puqualitative-hue]       Qualitative map, evenly distributed hue\n" ++
  "  [-l|--lightness=L]                  Set lightness in [0,1]\n" ++
  "  [-s|--saturation=S]                 Set saturation in [0,1]\n" ++
  "  [-h|--hue=H]                        Set default hue in [0,360] degrees\n" ++
  "  [-d|--divergence=D]                 Set diverg. in deg for div. and qual. maps\n" ++
  "  [-r|--rotations=R]                  Set number of rotations for rainbow maps\n" ++
  "  [-T|--temperature=T]                Set start temp. in K for black body maps\n" ++
  "  [-R|--range=R]                      Set range for lightness, saturation, or\n" ++
  "                                      temperature, depending on color map type\n" ++
  "CubeHelix color maps:\n" ++
  "  [-t|--type=cubehelix]               Generate a CubeHelix color map\n" ++
  "  [-h|--hue=H]                        Set start hue in [0,180] degrees\n" ++
  "  [-r|--rotations=R]                  Set number of rotations, in (-infty,infty)\n" ++
  "  [-s|--saturation=S]                 Set saturation, in [0,1]\n" ++
  "  [-g|--gamma=G]                      Set gamma correction, in (0,infty)\n" ++
  "Moreland diverging color maps:\n" ++
  "  [-t|--type=moreland]                Generate a Moreland diverging color map\n" ++
  "  [-A|--color0=sr,sg,sb]              Set the first color as sRGB in [0,255]\n" ++
  "  [-O|--color1=sr,sg,sb]              Set the last color as sRGB in [0,255]\n" ++
  "McNames sequential color maps:\n" ++
  "  [-t|--type=mcnames]                 Generate a McNames sequential color map\n" ++
  "  [-p|--periods=P]                    Set the number of periods in (0, infty)\n" ++
  "Defaults: format=csv, n=256, type=brewer-sequential\n" ++
  "https://marlam.de/gencolormap\n"

/-- What one run of `main` does, as far as the program text determines it.

* `status`: the exit status that `main` returns, `none` when `main` does not
  return because the process is aborted;
* `generated`: the generator invocations, in order, each with the vector whose
  storage it was handed;
* `serialized`: the serialiser invocations, in order: the selected format, the
  colour count and the vector contents passed;
* `out`, `err`: what `main` itself writes to standard output and standard error. -/
structure Outcome (F : Type) where
  status : Option Int
  generated : List (Call F × List Nat)
  serialized : List (format × Int × List Nat)
  out : String
  err : String
  deriving DecidableEq

/-- An outcome without generator or serialiser invocation: `main` returns
`status`. -/
def Outcome.early {F : Type} (status : Int) (out err : String) : Outcome F :=
  ⟨some status, [], [], out, err⟩

/-- The outcome of a run in which the constructor of the vector throws
`std::length_error` at line 401: nothing catches it, the process is aborted, and
`main` has written nothing. -/
def Outcome.aborted {F : Type} : Outcome F :=
  ⟨none, [], [], "", ""⟩

/-- The function `main` of `cmdline.cpp`, for the program name `argv0` and the
sequence `opts` of results of `getopt_long`. -/
def main {D F : Type} (L : Libc D F) (E : ColorMap F) (argv0 : String)
    (opts : List GetoptResult) : Outcome F :=
  match parseLoop L (Vars.init L) opts with
  | none => Outcome.early 1 "" ""
  | some s =>
    if s.print_version then Outcome.early 0 versionText ""
    else if s.print_help then Outcome.early 0 (helpText argv0) ""
    else
      match s.format with
      | none => Outcome.early 1 "" "Invalid argument for option -f|--format.\n"
      | some fmt =>
        if s.n < 2 then Outcome.early 1 "" "Invalid argument for option -n|--n.\n"
        else
          match s.type with
          | none => Outcome.early 1 "" "Invalid argument for option -t|--type.\n"
          | some t =>
            let s1 := applyDefaults L E t s
            if vectorMaxSize < colormapSize s1.n then Outcome.aborted
            else
              let colormap := List.replicate (colormapSize s1.n) 0
              let call := dispatch t s1
              let r := E.generate call colormap
              let output := serialize E fmt s1.n r.1
              { status := some 0
                generated := [(call, colormap)]
                serialized := [(fmt, s1.n, r.1)]
                out := fputs output
                err := toString r.2 ++ " color(s) were clipped\n" }

/-! ## A concrete C library and ColorMap library

Used to run `main` on example command lines. -/

namespace Sample

/-- The numbers of the sample C library, for `double` and `float` alike: NaN, an
integer `k`, or the result `rad k` of converting the integer `k` from degrees to
radians. -/
inductive Num
  | nan
  | int (k : Int)
  | rad (k : Int)
  deriving DecidableEq, Repr

/-- The value of a leading run of decimal digits, after the digits read so far. -/
def digits : List Char → Nat → Nat
  | [], acc => acc
  | ch :: rest, acc =>
    if 48 ≤ ch.toNat ∧ ch.toNat ≤ 57 then digits rest (10 * acc + (ch.toNat - 48)) else acc

/-- White space as `isspace` sees it: space and the characters 9 to 13. -/
def isSpace (ch : Char) : Bool :=
  ch.toNat = 32 || (9 ≤ ch.toNat && ch.toNat ≤ 13)

/-- An optional sign followed by decimal digits; no digits give 0. -/
def signedDigits : List Char → Int
  | [] => 0
  | ch :: rest =>
    if ch.toNat = 45 then - (digits rest 0 : Int)
    else if ch.toNat = 43 then (digits rest 0 : Int)
    else (digits (ch :: rest) 0 : Int)

/-- The integer that `strtol` reads in base 10: leading white space, an optional
sign, decimal digits. -/
def readInt (s : String) : Int :=
  signedDigits (s.data.dropWhile isSpace)

/-- The function `atoi`, the value reduced to an `int`. -/
def atoi (s : String) : Int :=
  wrapInt32 (readInt s)

/-- The function `atof` on the strings the examples use: `nan` is NaN, a decimal
integer is its value. Fractions and exponents are not read. -/
def atof (s : String) : Num :=
  if s = "nan" then Num.nan else Num.int (readInt s)

/-- Degrees to radians: NaN stays NaN, `k` degrees are `rad k`. -/
def degToRad : Num → Num
  | .nan => .nan
  | .int k => .rad k
  | .rad k => .rad k

/-- The test `x < 0.0f`: false for NaN; `k` and `k` degrees in radians are below
zero exactly when `k` is. -/
def ltZero : Num → Bool
  | .nan => false
  | .int k => decide (k < 0)
  | .rad k => decide (k < 0)

/-- The test `0.0f <= x`, "non-negative": false for NaN. -/
def geZero : Num → Bool
  | .nan => false
  | .int k => decide (0 ≤ k)
  | .rad k => decide (0 ≤ k)

/-- The test `0.0f <= x && x <= 1.0f`, "in [0,1]". -/
def inUnit : Num → Bool
  | .nan => false
  | .int k => decide (0 ≤ k ∧ k ≤ 1)
  | .rad k => decide (k = 0)

/-- The test `std::isnan(x)`. -/
def isnan : Num → Bool
  | .nan => true
  | _ => false

/-- The fields of a comma-separated list of decimal numbers, as lists of
characters. -/
def fields : List Char → List Char → List (List Char)
  | [], cur => [cur.reverse]
  | ch :: rest, cur =>
    if ch.toNat = 44 then cur.reverse :: fields rest [] else fields rest (ch :: cur)

/-- The values stored by `sscanf(s, "%hhu,%hhu,%hhu", ...)` on a list of unsigned
decimal numbers separated by commas: the leading fields that start with a digit,
at most three. -/
def sscanf_hhu3 (s : String) : List Nat :=
  (((fields s.data []).takeWhile
    (fun fld => match fld with
      | [] => false
      | ch :: _ => decide (48 ≤ ch.toNat ∧ ch.toNat ≤ 57))).map
    (fun fld => digits fld 0)).take 3

end Sample

/-- The sample C library. -/
def Sample.libc : Libc Sample.Num Sample.Num where
  atoi := Sample.atoi
  atoi_range := fun s => by
    unfold Sample.atoi wrapInt32
    omega
  atof := Sample.atof
  toFloat := fun d => d
  degToRad := Sample.degToRad
  minusOne := Sample.Num.int (-1)
  NAN := Sample.Num.nan
  ltZero := Sample.ltZero
  isnan := Sample.isnan
  ltZero_minusOne := by decide
  isnan_NAN := by decide
  sscanf_hhu3 := Sample.sscanf_hhu3

/-- A sample ColorMap library. Every default of a parameter documented as lying
in [0,1] is 0 or 1, the Moreland
colours are those of a blue to red map; a generator fills the vector with the
byte 128 and reports the count `clipped`; the serialisers return the name of
their format. -/
def Sample.colorMap (clipped : Int) : ColorMap Sample.Num where
  BrewerSequentialDefaultHue := .int 0
  BrewerSequentialDefaultContrast := .int 1
  BrewerSequentialDefaultContrastForSmallN := fun _ => .int 0
  BrewerSequentialDefaultSaturation := .int 1
  BrewerSequentialDefaultBrightness := .int 1
  BrewerSequentialDefaultWarmth := .int 0
  BrewerDivergingDefaultHue := .int 0
  BrewerDivergingDefaultDivergence := .int 1
  BrewerDivergingDefaultContrast := .int 1
  BrewerDivergingDefaultContrastForSmallN := fun _ => .int 0
  BrewerDivergingDefaultSaturation := .int 1
  BrewerDivergingDefaultBrightness := .int 1
  BrewerDivergingDefaultWarmth := .int 0
  BrewerQualitativeDefaultHue := .int 0
  BrewerQualitativeDefaultDivergence := .int 1
  BrewerQualitativeDefaultContrast := .int 1
  BrewerQualitativeDefaultSaturation := .int 1
  BrewerQualitativeDefaultBrightness := .int 1
  PUSequentialLightnessDefaultLightnessRange := .int 1
  PUSequentialLightnessDefaultSaturation := .int 1
  PUSequentialLightnessDefaultHue := .int 0
  PUSequentialSaturationDefaultSaturationRange := .int 1
  PUSequentialSaturationDefaultLightness := .int 1
  PUSequentialSaturationDefaultSaturation := .int 1
  PUSequentialSaturationDefaultHue := .int 0
  PUSequentialRainbowDefaultLightnessRange := .int 1
  PUSequentialRainbowDefaultHue := .int 0
  PUSequentialRainbowDefaultRotations := .int (-1)
  PUSequentialRainbowDefaultSaturation := .int 1
  PUSequentialBlackBodyDefaultTemperature := .int 1000
  PUSequentialBlackBodyDefaultRange := .int 6000
  PUSequentialBlackBodyDefaultSaturation := .int 1
  PUDivergingLightnessDefaultLightnessRange := .int 1
  PUDivergingLightnessDefaultSaturation := .int 1
  PUDivergingLightnessDefaultHue := .int 0
  PUDivergingLightnessDefaultDivergence := .int 1
  PUDivergingSaturationDefaultSaturationRange := .int 1
  PUDivergingSaturationDefaultLightness := .int 1
  PUDivergingSaturationDefaultSaturation := .int 1
  PUDivergingSaturationDefaultHue := .int 0
  PUDivergingSaturationDefaultDivergence := .int 1
  PUQualitativeHueDefaultHue := .int 0
  PUQualitativeHueDefaultDivergence := .int 1
  PUQualitativeHueDefaultLightness := .int 1
  PUQualitativeHueDefaultSaturation := .int 1
  CubeHelixDefaultHue := .int 0
  CubeHelixDefaultRotations := .int (-2)
  CubeHelixDefaultSaturation := .int 1
  CubeHelixDefaultGamma := .int 1
  MorelandDefaultR0 := 0
  MorelandDefaultG0 := 0
  MorelandDefaultB0 := 255
  MorelandDefaultR1 := 255
  MorelandDefaultG1 := 0
  MorelandDefaultB1 := 0
  McNamesDefaultPeriods := .int 2
  generate := fun _ buffer => (buffer.map (fun _ => 128), clipped)
  ToCSV := fun _ _ => "csv"
  ToJSON := fun _ _ => "json"
  ToPPM := fun _ _ => "ppm"

/-- The argument of the last occurrence of the option `k`, if the option occurs. -/
def lastArg (k : OptChar) : List GetoptResult → Option String
  | [] => none
  | o :: rest =>
    match lastArg k rest with
    | some a => some a
    | none => if o.c = k then some o.optarg else none

/-- Every option is one of the program (no result `other` of `getopt_long`). -/
def Recognised (opts : List GetoptResult) : Prop :=
  ∀ o ∈ opts, o.c ≠ OptChar.other

/-- Neither `--version` nor `--help` is given. -/
def NoVersionHelp (opts : List GetoptResult) : Prop :=
  ∀ o ∈ opts, o.c ≠ OptChar.v ∧ o.c ≠ OptChar.H

instance (opts : List GetoptResult) : Decidable (Recognised opts) := by
  unfold Recognised
  infer_instance

instance (opts : List GetoptResult) : Decidable (NoVersionHelp opts) := by
  unfold NoVersionHelp
  infer_instance

/-- The three format names of the usage text. -/
def formatNames : List String :=
  ["csv", "json", "ppm"]

/-- The thirteen family names of the usage text. -/
def familyNames : List String :=
  ["brewer-sequential", "brewer-diverging", "brewer-qualitative",
   "pusequential-lightness", "pusequential-saturation", "pusequential-rainbow",
   "pusequential-blackbody", "pudiverging-lightness", "pudiverging-saturation",
   "puqualitative-hue", "cubehelix", "moreland", "mcnames"]

/-- The format name in force: the last `--format` argument, `csv` without one. -/
def selectedFormat (opts : List GetoptResult) : String :=
  (lastArg OptChar.f opts).getD "csv"

/-- The family name in force: the last `--type` argument, `brewer-sequential`
without one. -/
def selectedFamily (opts : List GetoptResult) : String :=
  (lastArg OptChar.t opts).getD "brewer-sequential"

/-- The sample count in force: `atoi` of the last `--n` argument, 256 without
one. -/
def sampleCount {D F : Type} (L : Libc D F) (opts : List GetoptResult) : Int :=
  match lastArg OptChar.n opts with
  | none => 256
  | some a => L.atoi a

/-- The format in force is one of the three names. -/
def ValidFormat (opts : List GetoptResult) : Prop :=
  selectedFormat opts ∈ formatNames

/-- The family in force is one of the thirteen names. -/
def ValidType (opts : List GetoptResult) : Prop :=
  selectedFamily opts ∈ familyNames

instance (opts : List GetoptResult) : Decidable (ValidFormat opts) := by
  unfold ValidFormat
  infer_instance

instance (opts : List GetoptResult) : Decidable (ValidType opts) := by
  unfold ValidType
  infer_instance

/-- A command line that passes validation: recognised options, neither
`--version` nor `--help`, a valid format, at least two samples, a valid family. -/
def Validated {D F : Type} (L : Libc D F) (opts : List GetoptResult) : Prop :=
  Recognised opts ∧ NoVersionHelp opts ∧ ValidFormat opts ∧ 2 ≤ sampleCount L opts ∧
    ValidType opts

instance {D F : Type} (L : Libc D F) (opts : List GetoptResult) :
    Decidable (Validated L opts) := by
  unfold Validated
  infer_instance

/-- The value derived by `f` from the last argument of the option `k`, or `d`
when the option does not occur. -/
def pick {α : Type} (k : OptChar) (f : String → α) (d : α) (opts : List GetoptResult) : α :=
  match lastArg k opts with
  | none => d
  | some a => f a

/-- The array `a` after the `sscanf` of every occurrence of the option `k`. -/
def storeAll {D F : Type} (L : Libc D F) (k : OptChar) : Color → List GetoptResult → Color
  | a, [] => a
  | a, o :: rest =>
    storeAll L k (if o.c = k then a.store (L.sscanf_hhu3 o.optarg) else a) rest

/-- The variables after the option loop, started from `s`, in terms of the last
occurrence of each option. -/
def finalVars {D F : Type} (L : Libc D F) (s : Vars F) (opts : List GetoptResult) : Vars F where
  print_version := pick OptChar.v (fun _ => true) s.print_version opts
  print_help := pick OptChar.H (fun _ => true) s.print_help opts
  format := pick OptChar.f formatOfArg s.format opts
  type := pick OptChar.t typeOfArg s.type opts
  n := pick OptChar.n L.atoi s.n opts
  hue := pick OptChar.h (fun a => L.degToRad (L.atof a)) s.hue opts
  divergence := pick OptChar.d (fun a => L.degToRad (L.atof a)) s.divergence opts
  contrast := pick OptChar.c (fun a => L.toFloat (L.atof a)) s.contrast opts
  saturation := pick OptChar.s (fun a => L.toFloat (L.atof a)) s.saturation opts
  brightness := pick OptChar.b (fun a => L.toFloat (L.atof a)) s.brightness opts
  warmth := pick OptChar.w (fun a => L.toFloat (L.atof a)) s.warmth opts
  lightness := pick OptChar.l (fun a => L.toFloat (L.atof a)) s.lightness opts
  rotations := pick OptChar.r (fun a => L.toFloat (L.atof a)) s.rotations opts
  temperature := pick OptChar.T (fun a => L.toFloat (L.atof a)) s.temperature opts
  range := pick OptChar.R (fun a => L.toFloat (L.atof a)) s.range opts
  gamma := pick OptChar.g (fun a => L.toFloat (L.atof a)) s.gamma opts
  have_color0 := pick OptChar.A (fun _ => true) s.have_color0 opts
  color0 := storeAll L OptChar.A s.color0 opts
  have_color1 := pick OptChar.O (fun _ => true) s.have_color1 opts
  color1 := storeAll L OptChar.O s.color1 opts
  periods := pick OptChar.p (fun a => L.toFloat (L.atof a)) s.periods opts

/-- The variables that reach the generator call, for the family `t`: the result of
the option loop with the defaults filled in. -/
def resolvedVars {D F : Type} (L : Libc D F) (E : ColorMap F) (t : type)
    (opts : List GetoptResult) : Vars F :=
  applyDefaults L E t (finalVars L (Vars.init L) opts)

/-- The outcome of a run that reaches the generator call, for the format `fmt`
and the family `t`, when the vector is built. -/
def generationOutcome {D F : Type} (L : Libc D F) (E : ColorMap F) (fmt : format) (t : type)
    (opts : List GetoptResult) : Outcome F :=
  let n := sampleCount L opts
  let colormap := List.replicate (colormapSize n) 0
  let call := dispatch t (resolvedVars L E t opts)
  let r := E.generate call colormap
  { status := some 0
    generated := [(call, colormap)]
    serialized := [(fmt, n, r.1)]
    out := fputs (serialize E fmt n r.1)
    err := toString r.2 ++ " color(s) were clipped\n" }

/-! ## Names of the generators -/

/-- The name of the generator function of `colormap.hpp` that is invoked. -/
def Call.name {F : Type} : Call F → String
  | .BrewerSequential .. => "BrewerSequential"
  | .BrewerDiverging .. => "BrewerDiverging"
  | .BrewerQualitative .. => "BrewerQualitative"
  | .PUSequentialLightness .. => "PUSequentialLightness"
  | .PUSequentialSaturation .. => "PUSequentialSaturation"
  | .PUSequentialRainbow .. => "PUSequentialRainbow"
  | .PUSequentialBlackBody .. => "PUSequentialBlackBody"
  | .PUDivergingLightness .. => "PUDivergingLightness"
  | .PUDivergingSaturation .. => "PUDivergingSaturation"
  | .PUQualitativeHue .. => "PUQualitativeHue"
  | .CubeHelix .. => "CubeHelix"
  | .Moreland .. => "Moreland"
  | .McNames .. => "McNames"

/-- The sample count passed to the generator, its first argument. -/
def Call.n {F : Type} : Call F → Int
  | .BrewerSequential n .. => n
  | .BrewerDiverging n .. => n
  | .BrewerQualitative n .. => n
  | .PUSequentialLightness n .. => n
  | .PUSequentialSaturation n .. => n
  | .PUSequentialRainbow n .. => n
  | .PUSequentialBlackBody n .. => n
  | .PUDivergingLightness n .. => n
  | .PUDivergingSaturation n .. => n
  | .PUQualitativeHue n .. => n
  | .CubeHelix n .. => n
  | .Moreland n .. => n
  | .McNames n .. => n

/-- The generator that belongs to each family name. -/
def generatorOfFamily : List (String × String) :=
  [("brewer-sequential", "BrewerSequential"),
   ("brewer-diverging", "BrewerDiverging"),
   ("brewer-qualitative", "BrewerQualitative"),
   ("pusequential-lightness", "PUSequentialLightness"),
   ("pusequential-saturation", "PUSequentialSaturation"),
   ("pusequential-rainbow", "PUSequentialRainbow"),
   ("pusequential-blackbody", "PUSequentialBlackBody"),
   ("pudiverging-lightness", "PUDivergingLightness"),
   ("pudiverging-saturation", "PUDivergingSaturation"),
   ("puqualitative-hue", "PUQualitativeHue"),
   ("cubehelix", "CubeHelix"),
   ("moreland", "Moreland"),
   ("mcnames", "McNames")]

/-- The `float` variables of `main` that an option sets. -/
inductive Param
  | hue | divergence | contrast | saturation | brightness | warmth | lightness
  | rotations | temperature | range | gamma | periods
  deriving DecidableEq, Repr, Fintype

/-- The variables of `main` that occur as an argument of a generator call (the
buffer apart): `n`, a `float` variable, an element of `color0` or of `color1`. -/
inductive Var
  | n
  | param (p : Param)
  | color0 (i : Fin 3)
  | color1 (i : Fin 3)
  deriving DecidableEq, Repr

/-- The value of an argument of a generator call. -/
inductive Val (F : Type)
  | int (i : Int)
  | float (x : F)
  | byte (b : Option Nat)
  deriving DecidableEq, Repr

/-- The element `a[i]` of an array. -/
def Color.get (a : Color) (i : Fin 3) : Option Nat :=
  match i with
  | 0 => a.c0
  | 1 => a.c1
  | 2 => a.c2

/-- The value of a `float` variable. -/
def Vars.float {F : Type} (s : Vars F) : Param → F
  | .hue => s.hue
  | .divergence => s.divergence
  | .contrast => s.contrast
  | .saturation => s.saturation
  | .brightness => s.brightness
  | .warmth => s.warmth
  | .lightness => s.lightness
  | .rotations => s.rotations
  | .temperature => s.temperature
  | .range => s.range
  | .gamma => s.gamma
  | .periods => s.periods

/-- The value of a variable. -/
def Vars.val {F : Type} (s : Vars F) : Var → Val F
  | .n => .int s.n
  | .param p => .float (s.float p)
  | .color0 i => .byte (s.color0.get i)
  | .color1 i => .byte (s.color1.get i)

/-- The arguments of a generator invocation, in order (the buffer apart). -/
def Call.args {F : Type} : Call F → List (Val F)
  | .BrewerSequential n a b c d e => [.int n, .float a, .float b, .float c, .float d, .float e]
  | .BrewerDiverging n a b c d e f =>
    [.int n, .float a, .float b, .float c, .float d, .float e, .float f]
  | .BrewerQualitative n a b c d e => [.int n, .float a, .float b, .float c, .float d, .float e]
  | .PUSequentialLightness n a b c d => [.int n, .float a, .float b, .float c, .float d]
  | .PUSequentialSaturation n a b c d => [.int n, .float a, .float b, .float c, .float d]
  | .PUSequentialRainbow n a b c d e => [.int n, .float a, .float b, .float c, .float d, .float e]
  | .PUSequentialBlackBody n a b c => [.int n, .float a, .float b, .float c]
  | .PUDivergingLightness n a b c d e => [.int n, .float a, .float b, .float c, .float d, .float e]
  | .PUDivergingSaturation n a b c d e =>
    [.int n, .float a, .float b, .float c, .float d, .float e]
  | .PUQualitativeHue n a b c d => [.int n, .float a, .float b, .float c, .float d]
  | .CubeHelix n a b c d => [.int n, .float a, .float b, .float c, .float d]
  | .Moreland n a b c d e f => [.int n, .byte a, .byte b, .byte c, .byte d, .byte e, .byte f]
  | .McNames n a => [.int n, .float a]

/-- The variables that the call of lines 403 to 448 passes for each family, in the
order of the arguments (the buffer apart). -/
def callVars : type → List Var
  | .brewer_seq =>
    [.n, .param .hue, .param .contrast, .param .saturation, .param .brightness, .param .warmth]
  | .brewer_div =>
    [.n, .param .hue, .param .divergence, .param .contrast, .param .saturation,
     .param .brightness, .param .warmth]
  | .brewer_qual =>
    [.n, .param .hue, .param .divergence, .param .contrast, .param .saturation,
     .param .brightness]
  | .puseq_lightness => [.n, .param .range, .param .range, .param .saturation, .param .hue]
  | .puseq_saturation => [.n, .param .range, .param .lightness, .param .saturation, .param .hue]
  | .puseq_rainbow =>
    [.n, .param .range, .param .range, .param .hue, .param .rotations, .param .saturation]
  | .puseq_blackbody => [.n, .param .temperature, .param .range, .param .saturation]
  | .pudiv_lightness =>
    [.n, .param .range, .param .range, .param .saturation, .param .hue, .param .divergence]
  | .pudiv_saturation =>
    [.n, .param .range, .param .lightness, .param .saturation, .param .hue, .param .divergence]
  | .puqual_hue => [.n, .param .hue, .param .divergence, .param .lightness, .param .saturation]
  | .cubehelix => [.n, .param .hue, .param .rotations, .param .saturation, .param .gamma]
  | .moreland => [.n, .color0 0, .color0 1, .color0 2, .color1 0, .color1 1, .color1 2]
  | .mcnames => [.n, .param .periods]

/-- The option that sets a `float` variable. -/
def Param.option : Param → OptChar
  | .hue => .h
  | .divergence => .d
  | .contrast => .c
  | .saturation => .s
  | .brightness => .b
  | .warmth => .w
  | .lightness => .l
  | .rotations => .r
  | .temperature => .T
  | .range => .R
  | .gamma => .g
  | .periods => .p

/-- The value an option argument stands for: hue and divergence are given in
degrees and converted to radians. -/
def Param.convert {D F : Type} (L : Libc D F) (p : Param) (a : String) : F :=
  match p with
  | .hue => L.degToRad (L.atof a)
  | .divergence => L.degToRad (L.atof a)
  | _ => L.toFloat (L.atof a)

/-- The value the user supplies for a parameter: that of the last occurrence of
its option, if the option is given. -/
def supplied {D F : Type} (L : Libc D F) (opts : List GetoptResult) (p : Param) : Option F :=
  (lastArg p.option opts).map (p.convert L)

/-- The default constant of the family `t` for the parameter `p`, by the names of
`colormap.hpp`: `none` where the family has no such constant. The Brewer contrast
of the sequential and diverging families depends on the sample count `n`. -/
def defaultOf {F : Type} (E : ColorMap F) (t : type) (n : Int) (p : Param) : Option F :=
  match t, p with
  | .brewer_seq, .hue => some E.BrewerSequentialDefaultHue
  | .brewer_seq, .contrast =>
    some (if n ≤ 9 then E.BrewerSequentialDefaultContrastForSmallN n
      else E.BrewerSequentialDefaultContrast)
  | .brewer_seq, .saturation => some E.BrewerSequentialDefaultSaturation
  | .brewer_seq, .brightness => some E.BrewerSequentialDefaultBrightness
  | .brewer_seq, .warmth => some E.BrewerSequentialDefaultWarmth
  | .brewer_div, .hue => some E.BrewerDivergingDefaultHue
  | .brewer_div, .divergence => some E.BrewerDivergingDefaultDivergence
  | .brewer_div, .contrast =>
    some (if n ≤ 9 then E.BrewerDivergingDefaultContrastForSmallN n
      else E.BrewerDivergingDefaultContrast)
  | .brewer_div, .saturation => some E.BrewerDivergingDefaultSaturation
  | .brewer_div, .brightness => some E.BrewerDivergingDefaultBrightness
  | .brewer_div, .warmth => some E.BrewerDivergingDefaultWarmth
  | .brewer_qual, .hue => some E.BrewerQualitativeDefaultHue
  | .brewer_qual, .divergence => some E.BrewerQualitativeDefaultDivergence
  | .brewer_qual, .contrast => some E.BrewerQualitativeDefaultContrast
  | .brewer_qual, .saturation => some E.BrewerQualitativeDefaultSaturation
  | .brewer_qual, .brightness => some E.BrewerQualitativeDefaultBrightness
  | .puseq_lightness, .range => some E.PUSequentialLightnessDefaultLightnessRange
  | .puseq_lightness, .saturation => some E.PUSequentialLightnessDefaultSaturation
  | .puseq_lightness, .hue => some E.PUSequentialLightnessDefaultHue
  | .puseq_saturation, .range => some E.PUSequentialSaturationDefaultSaturationRange
  | .puseq_saturation, .lightness => some E.PUSequentialSaturationDefaultLightness
  | .puseq_saturation, .saturation => some E.PUSequentialSaturationDefaultSaturation
  | .puseq_saturation, .hue => some E.PUSequentialSaturationDefaultHue
  | .puseq_rainbow, .range => some E.PUSequentialRainbowDefaultLightnessRange
  | .puseq_rainbow, .hue => some E.PUSequentialRainbowDefaultHue
  | .puseq_rainbow, .rotations => some E.PUSequentialRainbowDefaultRotations
  | .puseq_rainbow, .saturation => some E.PUSequentialRainbowDefaultSaturation
  | .puseq_blackbody, .temperature => some E.PUSequentialBlackBodyDefaultTemperature
  | .puseq_blackbody, .range => some E.PUSequentialBlackBodyDefaultRange
  | .puseq_blackbody, .saturation => some E.PUSequentialBlackBodyDefaultSaturation
  | .pudiv_lightness, .range => some E.PUDivergingLightnessDefaultLightnessRange
  | .pudiv_lightness, .saturation => some E.PUDivergingLightnessDefaultSaturation
  | .pudiv_lightness, .hue => some E.PUDivergingLightnessDefaultHue
  | .pudiv_lightness, .divergence => some E.PUDivergingLightnessDefaultDivergence
  | .pudiv_saturation, .range => some E.PUDivergingSaturationDefaultSaturationRange
  | .pudiv_saturation, .lightness => some E.PUDivergingSaturationDefaultLightness
  | .pudiv_saturation, .saturation => some E.PUDivergingSaturationDefaultSaturation
  | .pudiv_saturation, .hue => some E.PUDivergingSaturationDefaultHue
  | .pudiv_saturation, .divergence => some E.PUDivergingSaturationDefaultDivergence
  | .puqual_hue, .hue => some E.PUQualitativeHueDefaultHue
  | .puqual_hue, .divergence => some E.PUQualitativeHueDefaultDivergence
  | .puqual_hue, .lightness => some E.PUQualitativeHueDefaultLightness
  | .puqual_hue, .saturation => some E.PUQualitativeHueDefaultSaturation
  | .cubehelix, .hue => some E.CubeHelixDefaultHue
  | .cubehelix, .rotations => some E.CubeHelixDefaultRotations
  | .cubehelix, .saturation => some E.CubeHelixDefaultSaturation
  | .cubehelix, .gamma => some E.CubeHelixDefaultGamma
  | .mcnames, .periods => some E.McNamesDefaultPeriods
  | _, _ => none

/-- Whether a supplied value is kept rather than replaced by the default, for a
test `nonneg` of being non-negative: rotations and periods are kept unless they
are NaN, every other parameter is kept when it is non-negative. -/
def Param.kept {D F : Type} (L : Libc D F) (nonneg : F → Bool) (p : Param) (v : F) : Bool :=
  match p with
  | .rotations => !L.isnan v
  | .periods => !L.isnan v
  | _ => nonneg v

/-- The reference definition of parameter resolution, for a test `nonneg` of
being non-negative: the supplied value when the option is given with a value that
is kept, otherwise the default constant of the same family. -/
def claimedValue {D F : Type} (L : Libc D F) (nonneg : F → Bool) (E : ColorMap F) (t : type)
    (n : Int) (opts : List GetoptResult) (p : Param) : Option F :=
  match supplied L opts p with
  | some v => if p.kept L nonneg v then some v else defaultOf E t n p
  | none => defaultOf E t n p

/-- The test `!(x < 0.0f)`, "not below zero". -/
def notBelowZero {D F : Type} (L : Libc D F) (x : F) : Bool :=
  !L.ltZero x

/-! ## The arguments of the generator call -/

/-- The default step of lines 264 to 399 for the variable `p`, applied to its
value `x` after the option loop. -/
def resolveFloat {D F : Type} (L : Libc D F) (E : ColorMap F) (t : type) (n : Int)
    (p : Param) (x : F) : F :=
  match p with
  | .hue => resolveHue L E t x
  | .divergence => resolveDivergence L E t x
  | .contrast => resolveContrast L E t n x
  | .saturation => resolveSaturation L E t x
  | .brightness => resolveBrightness L E t x
  | .warmth => resolveWarmth L E t x
  | .lightness => resolveLightness L E t x
  | .rotations => resolveRotations L E t x
  | .temperature => resolveTemperature L E t x
  | .range => resolveRange L E t x
  | .gamma => resolveGamma L E t x
  | .periods => resolvePeriods L E t x

/-- The Moreland default of the element `i` of `color0`. -/
def morelandDefault0 {F : Type} (E : ColorMap F) (i : Fin 3) : Nat :=
  match i with
  | 0 => E.MorelandDefaultR0
  | 1 => E.MorelandDefaultG0
  | 2 => E.MorelandDefaultB0

/-- The Moreland default of the element `i` of `color1`. -/
def morelandDefault1 {F : Type} (E : ColorMap F) (i : Fin 3) : Nat :=
  match i with
  | 0 => E.MorelandDefaultR1
  | 1 => E.MorelandDefaultG1
  | 2 => E.MorelandDefaultB1

/-- For the argument `arg` passed for the variable `var`: when the option of the
variable is not given, the argument is the default of the family `t`. -/
def UnsetIsDefault {D F : Type} (L : Libc D F) (E : ColorMap F) (t : type)
    (opts : List GetoptResult) (var : Var) (arg : Val F) : Prop :=
  match var with
  | .n => True
  | .param p =>
    lastArg p.option opts = none →
      (defaultOf E t (sampleCount L opts) p).map Val.float = some arg
  | .color0 i => lastArg OptChar.A opts = none → arg = Val.byte (some (morelandDefault0 E i))
  | .color1 i => lastArg OptChar.O opts = none → arg = Val.byte (some (morelandDefault1 E i))

/-- The parameters that the usage text documents as lying in [0,1]. -/
def unitParams : List Param :=
  [.contrast, .saturation, .brightness, .warmth, .lightness]

/-- No default constant of a parameter documented as lying in [0,1] is below zero,
for the sample count `n`. -/
def DefaultsNotBelowZero {D F : Type} (L : Libc D F) (E : ColorMap F) (n : Int) : Prop :=
  ∀ t : type, ∀ p ∈ unitParams, ∀ x ∈ defaultOf E t n p, L.ltZero x = false

instance {D F : Type} (L : Libc D F) (E : ColorMap F) (n : Int) :
    Decidable (DefaultsNotBelowZero L E n) := by
  unfold DefaultsNotBelowZero
  infer_instance

/-- Every default constant of a parameter documented as lying in [0,1] does lie
in [0,1], in the sample library and for the sample count `n`. -/
def Sample.DefaultsInUnit (E : ColorMap Sample.Num) (n : Int) : Prop :=
  ∀ t : type, ∀ p ∈ unitParams, ∀ x ∈ defaultOf E t n p, Sample.inUnit x = true

instance (E : ColorMap Sample.Num) (n : Int) : Decidable (Sample.DefaultsInUnit E n) := by
  unfold Sample.DefaultsInUnit
  infer_instance

/-- The argument passed for a parameter documented as lying in [0,1] is a `float`
that is not below zero. -/
def UnitNotBelowZero {D F : Type} (L : Libc D F) (var : Var) (arg : Val F) : Prop :=
  ∀ p, var = Var.param p → p ∈ unitParams → ∃ x, arg = Val.float x ∧ L.ltZero x = false

/-- The argument passed for a parameter documented as lying in [0,1] is the
supplied value when the option is given with a value that is not below zero, and
otherwise the default of the family `t` (for the contrast of brewer-sequential
and brewer-diverging the one for the sample count). -/
def UnitResolved {D F : Type} (L : Libc D F) (E : ColorMap F) (t : type)
    (opts : List GetoptResult) (var : Var) (arg : Val F) : Prop :=
  ∀ p, var = Var.param p → p ∈ unitParams →
    (claimedValue L (notBelowZero L) E t (sampleCount L opts) opts p).map Val.float = some arg

/-- The argument `arg` passed for the variable `var` is, for a `float` parameter
other than the contrast, the value of the reference definition with the test
"not below zero". -/
def IsResolved {D F : Type} (L : Libc D F) (E : ColorMap F) (t : type)
    (opts : List GetoptResult) (var : Var) (arg : Val F) : Prop :=
  ∀ p, var = Var.param p → p ≠ Param.contrast →
    (claimedValue L (notBelowZero L) E t (sampleCount L opts) opts p).map Val.float = some arg

/-- The families whose generator takes a lightness range and a saturation range. -/
def twoRangeFamilies : List type :=
  [.puseq_lightness, .puseq_rainbow, .pudiv_lightness]

/-- The lightness range argument of an invocation, for the three generators that
have one together with a saturation range. -/
def Call.lightnessRange {F : Type} : Call F → Option F
  | .PUSequentialLightness _ lightnessRange _ _ _ => some lightnessRange
  | .PUSequentialRainbow _ lightnessRange _ _ _ _ => some lightnessRange
  | .PUDivergingLightness _ lightnessRange _ _ _ _ => some lightnessRange
  | _ => none

/-- The saturation range argument of an invocation, for the same generators. -/
def Call.saturationRange {F : Type} : Call F → Option F
  | .PUSequentialLightness _ _ saturationRange _ _ => some saturationRange
  | .PUSequentialRainbow _ _ saturationRange _ _ _ => some saturationRange
  | .PUDivergingLightness _ _ saturationRange _ _ _ => some saturationRange
  | _ => none

/-- The constant `DefaultLightnessRange` of each of the three families. -/
def defaultLightnessRange {F : Type} (E : ColorMap F) : type → Option F
  | .puseq_lightness => some E.PUSequentialLightnessDefaultLightnessRange
  | .puseq_rainbow => some E.PUSequentialRainbowDefaultLightnessRange
  | .pudiv_lightness => some E.PUDivergingLightnessDefaultLightnessRange
  | _ => none

/-- The value `r` is the resolved `--range`: the supplied value unless that is
unset or below zero, then the constant `DefaultLightnessRange` of the family. -/
def IsResolvedRange {D F : Type} (L : Libc D F) (E : ColorMap F) (t : type)
    (opts : List GetoptResult) (r : F) : Prop :=
  match supplied L opts Param.range with
  | some v => if L.ltZero v = true then defaultLightnessRange E t = some r else r = v
  | none => defaultLightnessRange E t = some r

/-! ## Default contrast -/

/-- The contrast argument of an invocation, for the three Brewer generators. -/
def Call.contrast {F : Type} : Call F → Option F
  | .BrewerSequential _ _ contrast _ _ _ => some contrast
  | .BrewerDiverging _ _ _ contrast _ _ _ => some contrast
  | .BrewerQualitative _ _ _ contrast _ _ => some contrast
  | _ => none

/-- The three Brewer family names. -/
def brewerNames : List String :=
  ["brewer-sequential", "brewer-diverging", "brewer-qualitative"]

/-- The option `--contrast` is not given, or its last value is below zero. -/
def ContrastUnsetOrNegative {D F : Type} (L : Libc D F) (opts : List GetoptResult) : Prop :=
  ∀ v ∈ supplied L opts Param.contrast, L.ltZero v = true

instance {D F : Type} (L : Libc D F) (opts : List GetoptResult) :
    Decidable (ContrastUnsetOrNegative L opts) := by
  unfold ContrastUnsetOrNegative
  infer_instance

/-- The default contrast by family name and sample count: for brewer-sequential
and brewer-diverging `DefaultContrastForSmallN(n)` of the family when
`2 <= n <= 9` and its constant `DefaultContrast` when `n >= 10`; for
brewer-qualitative `BrewerQualitativeDefaultContrast` when `n >= 2`. -/
def defaultContrastByCount {F : Type} (E : ColorMap F) (family : String) (n : Int) :
    Option F :=
  if family = "brewer-sequential" then
    if 2 ≤ n ∧ n ≤ 9 then some (E.BrewerSequentialDefaultContrastForSmallN n)
    else if 10 ≤ n then some E.BrewerSequentialDefaultContrast
    else none
  else if family = "brewer-diverging" then
    if 2 ≤ n ∧ n ≤ 9 then some (E.BrewerDivergingDefaultContrastForSmallN n)
    else if 10 ≤ n then some E.BrewerDivergingDefaultContrast
    else none
  else if family = "brewer-qualitative" then
    if 2 ≤ n then some E.BrewerQualitativeDefaultContrast else none
  else none

/-! ## The option loop in terms of the last occurrences -/

theorem pick_nil {α : Type} (k : OptChar) (f : String → α) (d : α) :
    pick k f d [] = d := rfl

theorem pick_cons {α : Type} (k : OptChar) (f : String → α) (d : α) (o : GetoptResult)
    (rest : List GetoptResult) :
    pick k f d (o :: rest) = pick k f (if o.c = k then f o.optarg else d) rest := by
  unfold pick
  simp only [lastArg]
  cases lastArg k rest with
  | some a => rfl
  | none => by_cases h : o.c = k <;> simp [h]

theorem Recognised.tail {o : GetoptResult} {rest : List GetoptResult}
    (h : Recognised (o :: rest)) : Recognised rest :=
  fun x hx => h x (List.mem_cons_of_mem _ hx)

theorem parseLoop_eq {D F : Type} (L : Libc D F) (opts : List GetoptResult) :
    Recognised opts → ∀ s : Vars F, parseLoop L s opts = some (finalVars L s opts) := by
  induction opts with
  | nil => intro _ s; rfl
  | cons o rest ih =>
    intro h s
    have hrest := h.tail
    have ho : o.c ≠ OptChar.other := h o (List.mem_cons_self _ _)
    obtain ⟨k, a⟩ := o
    cases k <;>
      first
      | exact absurd rfl ho
      | simp [parseLoop, step, ih hrest, finalVars, pick_cons, storeAll]

theorem lastArg_eq_none_iff (k : OptChar) (opts : List GetoptResult) :
    lastArg k opts = none ↔ ∀ o ∈ opts, o.c ≠ k := by
  induction opts with
  | nil => simp [lastArg]
  | cons o rest ih =>
    simp only [lastArg, List.mem_cons, forall_eq_or_imp]
    cases hl : lastArg k rest with
    | some a =>
      have : ¬ ∀ o ∈ rest, o.c ≠ k := fun hall => by simp [ih.mpr hall] at hl
      simp [this]
    | none =>
      have hrest := ih.mp hl
      by_cases h : o.c = k
      · simp [h]
      · simpa [h] using hrest

theorem formatOfArg_eq_none_iff (a : String) : formatOfArg a = none ↔ a ∉ formatNames := by
  by_cases h : a ∈ formatNames
  · have hne : formatOfArg a ≠ none := by
      simp only [formatNames, List.mem_cons, List.mem_singleton, List.not_mem_nil,
        or_false] at h
      rcases h with rfl | rfl | rfl <;> decide
    simp [h, hne]
  · have hnone : formatOfArg a = none := by
      simp only [formatNames, List.mem_cons, List.mem_singleton, List.not_mem_nil,
        or_false, not_or] at h
      simp [formatOfArg, h]
    simp [h, hnone]

theorem typeOfArg_eq_none_iff (a : String) : typeOfArg a = none ↔ a ∉ familyNames := by
  by_cases h : a ∈ familyNames
  · have hne : typeOfArg a ≠ none := by
      simp only [familyNames, List.mem_cons, List.mem_singleton, List.not_mem_nil,
        or_false] at h
      rcases h with rfl | rfl | rfl | rfl | rfl | rfl | rfl | rfl | rfl | rfl | rfl | rfl | rfl <;>
        decide
    simp [h, hne]
  · have hnone : typeOfArg a = none := by
      simp only [familyNames, List.mem_cons, List.mem_singleton, List.not_mem_nil,
        or_false, not_or] at h
      simp [typeOfArg, h]
    simp [h, hnone]

theorem finalVars_format {D F : Type} (L : Libc D F) (opts : List GetoptResult) :
    (finalVars L (Vars.init L) opts).format = formatOfArg (selectedFormat opts) := by
  simp only [finalVars, pick, selectedFormat, Vars.init]
  cases lastArg OptChar.f opts <;> rfl

theorem finalVars_type {D F : Type} (L : Libc D F) (opts : List GetoptResult) :
    (finalVars L (Vars.init L) opts).type = typeOfArg (selectedFamily opts) := by
  simp only [finalVars, pick, selectedFamily, Vars.init]
  cases lastArg OptChar.t opts <;> rfl

theorem finalVars_n {D F : Type} (L : Libc D F) (opts : List GetoptResult) :
    (finalVars L (Vars.init L) opts).n = sampleCount L opts := rfl

theorem finalVars_print_version {D F : Type} (L : Libc D F) (opts : List GetoptResult)
    (h : NoVersionHelp opts) : (finalVars L (Vars.init L) opts).print_version = false := by
  have : lastArg OptChar.v opts = none :=
    (lastArg_eq_none_iff _ _).mpr (fun o ho => (h o ho).1)
  simp [finalVars, pick, this, Vars.init]

theorem finalVars_print_help {D F : Type} (L : Libc D F) (opts : List GetoptResult)
    (h : NoVersionHelp opts) : (finalVars L (Vars.init L) opts).print_help = false := by
  have : lastArg OptChar.H opts = none :=
    (lastArg_eq_none_iff _ _).mpr (fun o ho => (h o ho).2)
  simp [finalVars, pick, this, Vars.init]

/-- The run of `main` on recognised options without `--version` and `--help`, in
terms of the format, sample count and family in force. -/
theorem main_eq {D F : Type} (L : Libc D F) (E : ColorMap F) (argv0 : String)
    (opts : List GetoptResult) (hR : Recognised opts) (hV : NoVersionHelp opts) :
    main L E argv0 opts =
      match formatOfArg (selectedFormat opts) with
      | none => Outcome.early 1 "" "Invalid argument for option -f|--format.\n"
      | some fmt =>
        if sampleCount L opts < 2 then
          Outcome.early 1 "" "Invalid argument for option -n|--n.\n"
        else
          match typeOfArg (selectedFamily opts) with
          | none => Outcome.early 1 "" "Invalid argument for option -t|--type.\n"
          | some t =>
            if vectorMaxSize < colormapSize (sampleCount L opts) then Outcome.aborted
            else generationOutcome L E fmt t opts := by
  unfold main
  rw [parseLoop_eq L opts hR]
  simp only [finalVars_print_version L opts hV, finalVars_print_help L opts hV,
    finalVars_format, finalVars_type, finalVars_n, Bool.false_eq_true, if_false]
  cases formatOfArg (selectedFormat opts) with
  | none => rfl
  | some fmt =>
    by_cases hn : sampleCount L opts < 2
    · simp [hn]
    · simp only [hn, if_false]
      cases typeOfArg (selectedFamily opts) with
      | none => rfl
      | some t => rfl

/-- A validated run reaches line 401: it is aborted when the vector cannot be
built, and reaches the generator call otherwise. -/
theorem main_of_validated {D F : Type} (L : Libc D F) (E : ColorMap F) (argv0 : String)
    (opts : List GetoptResult) (h : Validated L opts) :
    ∃ fmt t, formatOfArg (selectedFormat opts) = some fmt ∧
      typeOfArg (selectedFamily opts) = some t ∧
      main L E argv0 opts =
        if vectorMaxSize < colormapSize (sampleCount L opts) then Outcome.aborted
        else generationOutcome L E fmt t opts := by
  obtain ⟨hR, hV, hF, hN, hT⟩ := h
  have hf : formatOfArg (selectedFormat opts) ≠ none :=
    fun hc => (formatOfArg_eq_none_iff _).mp hc hF
  have ht : typeOfArg (selectedFamily opts) ≠ none :=
    fun hc => (typeOfArg_eq_none_iff _).mp hc hT
  obtain ⟨fmt, hfmt⟩ := Option.ne_none_iff_exists'.mp hf
  obtain ⟨t, htt⟩ := Option.ne_none_iff_exists'.mp ht
  refine ⟨fmt, t, hfmt, htt, ?_⟩
  rw [main_eq L E argv0 opts hR hV, hfmt, htt]
  simp [not_lt.mpr hN]

/-! ## Output -/

theorem colormapSize_of_le (n : Int) (h0 : 0 ≤ n) (h1 : n ≤ 715827882) :
    colormapSize n = (3 * n).toNat := by
  have hw : wrapInt32 (3 * n) = 3 * n := by
    unfold wrapInt32
    omega
  have hm : (3 * n) % 18446744073709551616 = 3 * n :=
    Int.emod_eq_of_lt (by omega) (by omega)
  unfold colormapSize toSizeT
  rw [hw, hm]

theorem colormapSize_le_max (n : Int) (h0 : 0 ≤ n) (h1 : n ≤ 715827882) :
    colormapSize n ≤ vectorMaxSize := by
  rw [colormapSize_of_le n h0 h1]
  unfold vectorMaxSize
  omega

/-! ## C1 -/

/-- C1: on a command line of recognised options without `--version` and `--help`
whose sample count is below 2, `main` returns 1 and invokes neither a generator
nor a serialiser. -/
theorem main_rejects_small_n {D F : Type} (L : Libc D F) (E : ColorMap F) (argv0 : String)
    (opts : List GetoptResult) (hR : Recognised opts) (hV : NoVersionHelp opts)
    (hn : sampleCount L opts < 2) :
    (main L E argv0 opts).status = some 1 ∧ (main L E argv0 opts).generated = [] ∧
      (main L E argv0 opts).serialized = [] := by
  rw [main_eq L E argv0 opts hR hV]
  cases formatOfArg (selectedFormat opts) with
  | none => exact ⟨rfl, rfl, rfl⟩
  | some fmt => simp [hn, Outcome.early]

/-- The command lines `--n=1` and `--type=cubehelix --n=abc` are rejected. -/
theorem main_rejects_small_n_witness :
    (sampleCount Sample.libc [⟨OptChar.n, "1"⟩] = 1 ∧
      (main Sample.libc (Sample.colorMap 0) "gencolormap" [⟨OptChar.n, "1"⟩]).status = some 1 ∧
      (main Sample.libc (Sample.colorMap 0) "gencolormap" [⟨OptChar.n, "1"⟩]).generated = [] ∧
      (main Sample.libc (Sample.colorMap 0) "gencolormap" [⟨OptChar.n, "1"⟩]).serialized = []) ∧
    (sampleCount Sample.libc [⟨OptChar.t, "cubehelix"⟩, ⟨OptChar.n, "abc"⟩] = 0 ∧
      (main Sample.libc (Sample.colorMap 0) "gencolormap"
        [⟨OptChar.t, "cubehelix"⟩, ⟨OptChar.n, "abc"⟩]).status = some 1 ∧
      (main Sample.libc (Sample.colorMap 0) "gencolormap"
        [⟨OptChar.t, "cubehelix"⟩, ⟨OptChar.n, "abc"⟩]).generated = [] ∧
      (main Sample.libc (Sample.colorMap 0) "gencolormap"
        [⟨OptChar.t, "cubehelix"⟩, ⟨OptChar.n, "abc"⟩]).serialized = []) :=
  ⟨⟨by decide, main_rejects_small_n Sample.libc (Sample.colorMap 0) "gencolormap"
      [⟨OptChar.n, "1"⟩] (by decide) (by decide) (by decide)⟩,
   ⟨by decide, main_rejects_small_n Sample.libc (Sample.colorMap 0) "gencolormap"
      [⟨OptChar.t, "cubehelix"⟩, ⟨OptChar.n, "abc"⟩] (by decide) (by decide) (by decide)⟩⟩

/-! ## C2 -/

theorem selectedFamily_not_mem_iff (opts : List GetoptResult) :
    selectedFamily opts ∉ familyNames ↔
      ∃ a, lastArg OptChar.t opts = some a ∧ a ∉ familyNames := by
  unfold selectedFamily
  cases lastArg OptChar.t opts with
  | none =>
    have hd : "brewer-sequential" ∈ familyNames := by decide
    simp [hd]
  | some a => simp

/-- C2: on a command line of recognised options without `--version` and `--help`,
with a valid format and at least two samples, `main` returns 1 without invoking a
generator exactly when there is a last `--type` argument and it is not one of the
thirteen family names. -/
theorem main_rejects_exactly_unknown_type {D F : Type} (L : Libc D F) (E : ColorMap F)
    (argv0 : String) (opts : List GetoptResult) (hR : Recognised opts)
    (hV : NoVersionHelp opts) (hF : ValidFormat opts) (hn : 2 ≤ sampleCount L opts) :
    ((main L E argv0 opts).status = some 1 ∧ (main L E argv0 opts).generated = []) ↔
      ∃ a, lastArg OptChar.t opts = some a ∧ a ∉ familyNames := by
  rw [← selectedFamily_not_mem_iff, ← typeOfArg_eq_none_iff, main_eq L E argv0 opts hR hV]
  have hf : formatOfArg (selectedFormat opts) ≠ none :=
    fun hc => (formatOfArg_eq_none_iff _).mp hc hF
  obtain ⟨fmt, hfmt⟩ := Option.ne_none_iff_exists'.mp hf
  rw [hfmt]
  simp only [not_lt.mpr hn, if_false]
  cases typeOfArg (selectedFamily opts) with
  | none => simp [Outcome.early]
  | some t =>
    by_cases hb : vectorMaxSize < colormapSize (sampleCount L opts)
    · simp [hb, Outcome.aborted]
    · simp [hb, generationOutcome]

/-- The family name is compared case-sensitively: `--type=Cubehelix` is
rejected, `--type=cubehelix` is not. -/
theorem main_rejects_exactly_unknown_type_witness :
    (((main Sample.libc (Sample.colorMap 0) "gencolormap"
        [⟨OptChar.t, "Cubehelix"⟩]).status = some 1 ∧
      (main Sample.libc (Sample.colorMap 0) "gencolormap" [⟨OptChar.t, "Cubehelix"⟩]).generated
        = []) ↔
      ∃ a, lastArg OptChar.t [⟨OptChar.t, "Cubehelix"⟩] = some a ∧ a ∉ familyNames) ∧
    (main Sample.libc (Sample.colorMap 0) "gencolormap"
      [⟨OptChar.t, "Cubehelix"⟩]).status = some 1 ∧
    (main Sample.libc (Sample.colorMap 0) "gencolormap"
      [⟨OptChar.t, "cubehelix"⟩]).status = some 0 :=
  ⟨main_rejects_exactly_unknown_type Sample.libc (Sample.colorMap 0) "gencolormap"
      [⟨OptChar.t, "Cubehelix"⟩] (by decide) (by decide) (by decide) (by decide),
    by decide, by decide⟩

/-! ## Reaching the generator call -/

theorem main_of_built {D F : Type} (L : Libc D F) (E : ColorMap F) (argv0 : String)
    (opts : List GetoptResult) (h : Validated L opts)
    (hb : colormapSize (sampleCount L opts) ≤ vectorMaxSize) :
    ∃ fmt t, formatOfArg (selectedFormat opts) = some fmt ∧
      typeOfArg (selectedFamily opts) = some t ∧
      main L E argv0 opts = generationOutcome L E fmt t opts := by
  obtain ⟨fmt, t, hf, ht, hmain⟩ := main_of_validated L E argv0 opts h
  refine ⟨fmt, t, hf, ht, ?_⟩
  rw [hmain, if_neg (not_lt.mpr hb)]

/-- A validated run invokes no generator but the one of the family in force, on
the resolved variables and on a vector of zeros; it does invoke it, once, and
returns 0, when the vector can be built. -/
theorem generated_of_validated {D F : Type} (L : Libc D F) (E : ColorMap F) (argv0 : String)
    (opts : List GetoptResult) (h : Validated L opts) :
    ∃ t, typeOfArg (selectedFamily opts) = some t ∧
      (∀ call buffer, (call, buffer) ∈ (main L E argv0 opts).generated →
        call = dispatch t (resolvedVars L E t opts)) ∧
      (colormapSize (sampleCount L opts) ≤ vectorMaxSize →
        (main L E argv0 opts).status = some 0 ∧
        (main L E argv0 opts).generated =
          [(dispatch t (resolvedVars L E t opts),
            List.replicate (colormapSize (sampleCount L opts)) 0)]) := by
  obtain ⟨fmt, t, _, ht, hmain⟩ := main_of_validated L E argv0 opts h
  refine ⟨t, ht, ?_, ?_⟩
  · intro call buffer hmem
    rw [hmain] at hmem
    by_cases hb : vectorMaxSize < colormapSize (sampleCount L opts)
    · simp [hb, Outcome.aborted] at hmem
    · simp only [hb, if_false, generationOutcome, List.mem_singleton, Prod.mk.injEq] at hmem
      exact hmem.1
  · intro hb
    rw [hmain, if_neg (not_lt.mpr hb)]
    exact ⟨rfl, rfl⟩

/-! ## C5 -/

theorem generator_of_typeOfArg {F : Type} (a : String) (t : type) (s : Vars F)
    (ha : a ∈ familyNames) (ht : typeOfArg a = some t) :
    generatorOfFamily.lookup a = some (dispatch t s).name := by
  simp only [familyNames, List.mem_cons, List.mem_singleton, List.not_mem_nil,
    or_false] at ha
  rcases ha with rfl | rfl | rfl | rfl | rfl | rfl | rfl | rfl | rfl | rfl | rfl | rfl | rfl <;>
    cases t <;> first | rfl | exact absurd ht (by decide)

theorem dispatch_n {D F : Type} (L : Libc D F) (E : ColorMap F) (t : type)
    (opts : List GetoptResult) :
    (dispatch t (resolvedVars L E t opts)).n = sampleCount L opts := by
  cases t <;> rfl

/-- C5 does not hold at `--n=1000000000`: the command line passes validation,
`3 * n` is 3000000000 and does not fit an `int`; it wraps to -1294967296, which as
a `size_t` exceeds `max_size()`, so the constructor of the vector throws at line
401 and the process is aborted: no generator and no serialiser is invoked. -/
theorem generator_not_invoked_on_overflow :
    Validated Sample.libc [⟨OptChar.n, "1000000000"⟩] ∧
    sampleCount Sample.libc [⟨OptChar.n, "1000000000"⟩] = 1000000000 ∧
    wrapInt32 (3 * 1000000000) = -1294967296 ∧
    colormapSize 1000000000 = 18446744072414584320 ∧
    vectorMaxSize < colormapSize 1000000000 ∧
    (main Sample.libc (Sample.colorMap 0) "gencolormap"
      [⟨OptChar.n, "1000000000"⟩]).status = none ∧
    (main Sample.libc (Sample.colorMap 0) "gencolormap"
      [⟨OptChar.n, "1000000000"⟩]).generated = [] ∧
    (main Sample.libc (Sample.colorMap 0) "gencolormap"
      [⟨OptChar.n, "1000000000"⟩]).serialized = [] := by
  decide

/-- Where the vector can be built, in particular for `n <= 715827882`, a command
line that passes validation makes `main` invoke exactly one generator, once: the
one that belongs to the family name in force, with the validated sample count as
its first argument; and the thirteen family names are mapped to thirteen distinct
values of `type`. -/
theorem main_invokes_selected_generator {D F : Type} (L : Libc D F) (E : ColorMap F)
    (argv0 : String) (opts : List GetoptResult) (h : Validated L opts)
    (hb : colormapSize (sampleCount L opts) ≤ vectorMaxSize) :
    (∃ call buffer, (main L E argv0 opts).generated = [(call, buffer)] ∧
      generatorOfFamily.lookup (selectedFamily opts) = some call.name ∧
      call.n = sampleCount L opts) ∧
    (familyNames.map typeOfArg).Nodup ∧ (∀ a ∈ familyNames, typeOfArg a ≠ none) ∧
      familyNames.length = 13 := by
  refine ⟨?_, by decide, by decide, by decide⟩
  obtain ⟨t, ht, _, hgen⟩ := generated_of_validated L E argv0 opts h
  refine ⟨dispatch t (resolvedVars L E t opts),
    List.replicate (colormapSize (sampleCount L opts)) 0, (hgen hb).2, ?_, ?_⟩
  · exact generator_of_typeOfArg _ t _ h.2.2.2.2 ht
  · exact dispatch_n L E t opts

/-- On `--type=moreland --type=mcnames --n=5` the generator McNames is invoked
once with five samples. -/
theorem main_invokes_selected_generator_witness :
    Validated Sample.libc
      [⟨OptChar.t, "moreland"⟩, ⟨OptChar.t, "mcnames"⟩, ⟨OptChar.n, "5"⟩] ∧
    (main Sample.libc (Sample.colorMap 0) "gencolormap"
      [⟨OptChar.t, "moreland"⟩, ⟨OptChar.t, "mcnames"⟩, ⟨OptChar.n, "5"⟩]).generated =
        [(Call.McNames 5 (Sample.Num.int 2), List.replicate 15 0)] ∧
    ((∃ call buffer, (main Sample.libc (Sample.colorMap 0) "gencolormap"
        [⟨OptChar.t, "moreland"⟩, ⟨OptChar.t, "mcnames"⟩, ⟨OptChar.n, "5"⟩]).generated =
          [(call, buffer)] ∧
      generatorOfFamily.lookup (selectedFamily
        [⟨OptChar.t, "moreland"⟩, ⟨OptChar.t, "mcnames"⟩, ⟨OptChar.n, "5"⟩]) = some call.name ∧
      call.n = sampleCount Sample.libc
        [⟨OptChar.t, "moreland"⟩, ⟨OptChar.t, "mcnames"⟩, ⟨OptChar.n, "5"⟩]) ∧
    (familyNames.map typeOfArg).Nodup ∧ (∀ a ∈ familyNames, typeOfArg a ≠ none) ∧
      familyNames.length = 13) :=
  ⟨by decide, by decide,
    main_invokes_selected_generator Sample.libc (Sample.colorMap 0) "gencolormap"
      [⟨OptChar.t, "moreland"⟩, ⟨OptChar.t, "mcnames"⟩, ⟨OptChar.n, "5"⟩]
      (by decide) (by decide)⟩

/-! ## C7 -/

/-- C7 does not hold at `--n=1431655766`: the command line passes
validation, `3 * n` is 4294967298 and does not fit an `int`; it wraps to 2, so the
generator is invoked for 1431655766 colours on a vector of 2 elements. -/
theorem colormap_size_wraps :
    Validated Sample.libc [⟨OptChar.n, "1431655766"⟩] ∧
    sampleCount Sample.libc [⟨OptChar.n, "1431655766"⟩] = 1431655766 ∧
    (main Sample.libc (Sample.colorMap 0) "gencolormap" [⟨OptChar.n, "1431655766"⟩]).generated =
      [(Call.BrewerSequential 1431655766 (Sample.Num.int 0) (Sample.Num.int 1)
          (Sample.Num.int 1) (Sample.Num.int 1) (Sample.Num.int 0), [0, 0])] ∧
    (main Sample.libc (Sample.colorMap 0) "gencolormap" [⟨OptChar.n, "1431655766"⟩]).serialized =
      [(format.csv, 1431655766, [128, 128])] ∧
    (3 * 1431655766 : Int) = 4294967298 := by
  decide

/-! ## C8 -/

/-- C9: with no option at all, `main` invokes BrewerSequential once, for 256
colours on a vector of 768 bytes, with the BrewerSequential defaults of hue,
saturation, brightness and warmth and with `BrewerSequentialDefaultContrast`,
passes the vector to `ToCSV`, writes the result to standard output with `fputs`
and returns 0. -/
theorem main_empty_command_line {D F : Type} (L : Libc D F) (E : ColorMap F)
    (argv0 : String) :
    main L E argv0 [] =
      { status := some 0
        generated :=
          [(Call.BrewerSequential 256 E.BrewerSequentialDefaultHue
              E.BrewerSequentialDefaultContrast E.BrewerSequentialDefaultSaturation
              E.BrewerSequentialDefaultBrightness E.BrewerSequentialDefaultWarmth,
            List.replicate 768 0)]
        serialized :=
          [(format.csv, 256,
            (E.generate (Call.BrewerSequential 256 E.BrewerSequentialDefaultHue
              E.BrewerSequentialDefaultContrast E.BrewerSequentialDefaultSaturation
              E.BrewerSequentialDefaultBrightness E.BrewerSequentialDefaultWarmth)
              (List.replicate 768 0)).1)]
        out :=
          fputs (E.ToCSV 256
            (E.generate (Call.BrewerSequential 256 E.BrewerSequentialDefaultHue
              E.BrewerSequentialDefaultContrast E.BrewerSequentialDefaultSaturation
              E.BrewerSequentialDefaultBrightness E.BrewerSequentialDefaultWarmth)
              (List.replicate 768 0)).1)
        err :=
          toString (E.generate (Call.BrewerSequential 256 E.BrewerSequentialDefaultHue
              E.BrewerSequentialDefaultContrast E.BrewerSequentialDefaultSaturation
              E.BrewerSequentialDefaultBrightness E.BrewerSequentialDefaultWarmth)
              (List.replicate 768 0)).2 ++ " color(s) were clipped\n" } := by
  have hsize : colormapSize 256 = 768 := by decide
  have hout : ∀ b, serialize E format.csv 256 b = E.ToCSV 256 b := by
    intro b
    simp [serialize]
  have hfit : ¬ vectorMaxSize < colormapSize 256 := by decide
  have hcall : dispatch type.brewer_seq (resolvedVars L E type.brewer_seq []) =
      Call.BrewerSequential 256 E.BrewerSequentialDefaultHue
        E.BrewerSequentialDefaultContrast E.BrewerSequentialDefaultSaturation
        E.BrewerSequentialDefaultBrightness E.BrewerSequentialDefaultWarmth := by
    simp [dispatch, resolvedVars, applyDefaults, finalVars, pick, lastArg, Vars.init,
      resolveHue, resolveContrast, resolveSaturation, resolveBrightness, resolveWarmth,
      L.ltZero_minusOne]
  have hf : formatOfArg (selectedFormat []) = some format.csv := by decide
  have ht : typeOfArg (selectedFamily []) = some type.brewer_seq := by decide
  have hn : sampleCount L ([] : List GetoptResult) = 256 := rfl
  have h2 : ¬ (256 : Int) < 2 := by decide
  rw [main_eq L E argv0 [] (fun _ ho => by cases ho) (fun _ ho => by cases ho)]
  simp only [hf, ht, hn, h2, hfit, if_false]
  unfold generationOutcome
  simp only [hn, hcall, hsize, hout]

theorem dispatch_args {F : Type} (t : type) (s : Vars F) :
    (dispatch t s).args = (callVars t).map s.val := by
  cases t <;> rfl

theorem resolvedVars_float_eq {D F : Type} (L : Libc D F) (E : ColorMap F) (t : type)
    (opts : List GetoptResult) (p : Param) :
    (resolvedVars L E t opts).float p =
      resolveFloat L E t (sampleCount L opts) p
        (pick p.option (p.convert L) ((Vars.init L).float p) opts) := by
  cases p <;> rfl

theorem init_not_kept {D F : Type} (L : Libc D F) (p : Param) :
    p.kept L (notBelowZero L) ((Vars.init L).float p) = false := by
  cases p <;>
    simp [Param.kept, notBelowZero, Vars.init, Vars.float, L.ltZero_minusOne, L.isnan_NAN]

theorem resolveFloat_of_kept {D F : Type} (L : Libc D F) (E : ColorMap F) (t : type) (n : Int)
    (p : Param) (x : F) (hx : p.kept L (notBelowZero L) x = true) :
    resolveFloat L E t n p x = x := by
  cases p <;> simp [Param.kept, notBelowZero] at hx <;>
    simp [resolveFloat, resolveHue, resolveDivergence, resolveContrast, resolveSaturation,
      resolveBrightness, resolveWarmth, resolveLightness, resolveRotations,
      resolveTemperature, resolveRange, resolveGamma, resolvePeriods, hx]

set_option maxHeartbeats 1600000 in
theorem resolveFloat_of_not_kept {D F : Type} (L : Libc D F) (E : ColorMap F) (t : type)
    (n : Int) (p : Param) (x : F) (hp : Var.param p ∈ callVars t)
    (hx : p.kept L (notBelowZero L) x = false) :
    defaultOf E t n p = some (resolveFloat L E t n p x) := by
  cases p <;> simp [Param.kept, notBelowZero] at hx <;> cases t <;>
    first
    | exact absurd hp (by decide)
    | simp [resolveFloat, defaultOf, resolveHue, resolveDivergence, resolveContrast,
        resolveSaturation, resolveBrightness, resolveWarmth, resolveLightness,
        resolveRotations, resolveTemperature, resolveRange, resolveGamma, resolvePeriods, hx]

theorem resolvedVars_float {D F : Type} (L : Libc D F) (E : ColorMap F) (t : type)
    (opts : List GetoptResult) (p : Param) (hp : Var.param p ∈ callVars t) :
    claimedValue L (notBelowZero L) E t (sampleCount L opts) opts p =
      some ((resolvedVars L E t opts).float p) := by
  rw [resolvedVars_float_eq]
  unfold claimedValue supplied pick
  cases lastArg p.option opts with
  | none => exact resolveFloat_of_not_kept L E t _ p _ hp (init_not_kept L p)
  | some a =>
    by_cases hk : p.kept L (notBelowZero L) (p.convert L a) = true
    · simp [hk, resolveFloat_of_kept L E t _ p _ hk]
    · have hk2 : p.kept L (notBelowZero L) (p.convert L a) = false := by simpa using hk
      simp [hk2, resolveFloat_of_not_kept L E t _ p _ hp hk2]

/-! ## Validated runs, argument by argument -/

theorem forall₂_map_of_forall {α β : Type} (R : α → β → Prop) (f : α → β) (l : List α)
    (h : ∀ x ∈ l, R x (f x)) : List.Forall₂ R l (l.map f) := by
  induction l with
  | nil => exact List.Forall₂.nil
  | cons x rest ih =>
    exact List.Forall₂.cons (h x (List.mem_cons_self _ _))
      (ih (fun y hy => h y (List.mem_cons_of_mem _ hy)))

theorem color_var_moreland {t : type} {var : Var} (hv : var ∈ callVars t)
    (hc : (∃ i, var = Var.color0 i) ∨ (∃ i, var = Var.color1 i)) : t = type.moreland := by
  rcases hc with ⟨i, rfl⟩ | ⟨i, rfl⟩ <;> cases t <;>
    first
    | rfl
    | (simp [callVars] at hv)

theorem unsetIsDefault_resolved {D F : Type} (L : Libc D F) (E : ColorMap F) (t : type)
    (opts : List GetoptResult) (var : Var) (hv : var ∈ callVars t) :
    UnsetIsDefault L E t opts var ((resolvedVars L E t opts).val var) := by
  cases var with
  | n => trivial
  | param p =>
    intro hnone
    have hr := resolvedVars_float L E t opts p hv
    simp only [claimedValue, supplied, hnone, Option.map_none'] at hr
    simp [hr, Vars.val]
  | color0 i =>
    intro hnone
    obtain rfl := color_var_moreland hv (Or.inl ⟨i, rfl⟩)
    simp only [Vars.val, resolvedVars, applyDefaults, finalVars, pick, hnone, Vars.init,
      resolveColor0, Bool.not_false, if_true]
    fin_cases i <;> rfl
  | color1 i =>
    intro hnone
    obtain rfl := color_var_moreland hv (Or.inr ⟨i, rfl⟩)
    simp only [Vars.val, resolvedVars, applyDefaults, finalVars, pick, hnone, Vars.init,
      resolveColor1, Bool.not_false, if_true]
    fin_cases i <;> rfl

/-! ## C3 -/

/-- C3 does not hold at `--type=cubehelix`: no `--gamma` is given, and `main`
returns 0 and invokes CubeHelix with the default gamma. -/
theorem unset_parameter_is_no_error :
    lastArg OptChar.g [⟨OptChar.t, "cubehelix"⟩] = none ∧
    (main Sample.libc (Sample.colorMap 0) "gencolormap"
      [⟨OptChar.t, "cubehelix"⟩]).status = some 0 ∧
    (main Sample.libc (Sample.colorMap 0) "gencolormap"
      [⟨OptChar.t, "cubehelix"⟩]).generated.map Prod.fst =
        [Call.CubeHelix 256 (Sample.colorMap 0).CubeHelixDefaultHue
          (Sample.colorMap 0).CubeHelixDefaultRotations
          (Sample.colorMap 0).CubeHelixDefaultSaturation
          (Sample.colorMap 0).CubeHelixDefaultGamma] := by
  decide

/-- C3, in the form that holds: on a command line that passes validation
(recognised options, neither `--version` nor `--help`, a valid format, at least
two samples, a valid family) with a sample count of at most 715827882, so that
`3 * n` fits an `int`, `main` returns 0 and invokes the generator of the family in
force; every argument whose option is not given is the default of that family
(for a `float` parameter the default constant, for a Moreland colour the default
colour). -/
theorem unset_parameter_gets_default {D F : Type} (L : Libc D F) (E : ColorMap F)
    (argv0 : String) (opts : List GetoptResult) (h : Validated L opts)
    (hn : sampleCount L opts ≤ 715827882) :
    (main L E argv0 opts).status = some 0 ∧
    ∃ t call buffer, typeOfArg (selectedFamily opts) = some t ∧
      (main L E argv0 opts).generated = [(call, buffer)] ∧
      List.Forall₂ (UnsetIsDefault L E t opts) (callVars t) call.args := by
  obtain ⟨t, ht, _, hbuilt⟩ := generated_of_validated L E argv0 opts h
  have hb := colormapSize_le_max (sampleCount L opts) (by have := h.2.2.2.1; omega) hn
  refine ⟨(hbuilt hb).1, t, _, _, ht, (hbuilt hb).2, ?_⟩
  rw [dispatch_args]
  exact forall₂_map_of_forall _ _ _ (unsetIsDefault_resolved L E t opts)

/-- On `--type=mcnames --n=4`, without `--periods`, McNames is invoked with the
default number of periods. -/
theorem unset_parameter_gets_default_witness :
    Validated Sample.libc [⟨OptChar.t, "mcnames"⟩, ⟨OptChar.n, "4"⟩] ∧
    (main Sample.libc (Sample.colorMap 0) "gencolormap"
      [⟨OptChar.t, "mcnames"⟩, ⟨OptChar.n, "4"⟩]).generated =
        [(Call.McNames 4 (Sample.colorMap 0).McNamesDefaultPeriods, List.replicate 12 0)] ∧
    sampleCount Sample.libc [⟨OptChar.t, "mcnames"⟩, ⟨OptChar.n, "4"⟩] ≤ 715827882 ∧
    ((main Sample.libc (Sample.colorMap 0) "gencolormap"
      [⟨OptChar.t, "mcnames"⟩, ⟨OptChar.n, "4"⟩]).status = some 0 ∧
    ∃ t call buffer,
      typeOfArg (selectedFamily [⟨OptChar.t, "mcnames"⟩, ⟨OptChar.n, "4"⟩]) = some t ∧
      (main Sample.libc (Sample.colorMap 0) "gencolormap"
        [⟨OptChar.t, "mcnames"⟩, ⟨OptChar.n, "4"⟩]).generated = [(call, buffer)] ∧
      List.Forall₂ (UnsetIsDefault Sample.libc (Sample.colorMap 0) t
        [⟨OptChar.t, "mcnames"⟩, ⟨OptChar.n, "4"⟩]) (callVars t) call.args) :=
  ⟨by decide, by decide, by decide,
    unset_parameter_gets_default Sample.libc (Sample.colorMap 0) "gencolormap"
      [⟨OptChar.t, "mcnames"⟩, ⟨OptChar.n, "4"⟩] (by decide) (by decide)⟩

/-! ## C4 -/

/-- C4 does not hold at `--saturation=5`: the defaults of the sample library lie in
[0,1], `main` returns 0 and invokes BrewerSequential with the saturation 5, which
does not lie in [0,1]. -/
theorem saturation_above_one_is_passed :
    Sample.DefaultsInUnit (Sample.colorMap 0) 256 ∧
    (main Sample.libc (Sample.colorMap 0) "gencolormap" [⟨OptChar.s, "5"⟩]).status = some 0 ∧
    (main Sample.libc (Sample.colorMap 0) "gencolormap"
      [⟨OptChar.s, "5"⟩]).generated.map Prod.fst =
        [Call.BrewerSequential 256 (Sample.Num.int 0) (Sample.Num.int 1) (Sample.Num.int 5)
          (Sample.Num.int 1) (Sample.Num.int 0)] ∧
    Sample.inUnit (Sample.Num.int 5) = false := by
  decide

theorem unitNotBelowZero_resolved {D F : Type} (L : Libc D F) (E : ColorMap F) (t : type)
    (opts : List GetoptResult) (hd : DefaultsNotBelowZero L E (sampleCount L opts))
    (var : Var) (hv : var ∈ callVars t) :
    UnitNotBelowZero L var ((resolvedVars L E t opts).val var) := by
  intro p hp hunit
  subst hp
  refine ⟨(resolvedVars L E t opts).float p, rfl, ?_⟩
  have hr := resolvedVars_float L E t opts p hv
  have hkept : ∀ v, p.kept L (notBelowZero L) v = true → L.ltZero v = false := by
    intro v hk
    simp only [unitParams, List.mem_cons, List.mem_singleton, List.not_mem_nil,
      or_false] at hunit
    rcases hunit with rfl | rfl | rfl | rfl | rfl <;>
      simpa [Param.kept, notBelowZero] using hk
  unfold claimedValue at hr
  cases hs : supplied L opts p with
  | none =>
    rw [hs] at hr
    exact hd t p hunit _ hr
  | some v =>
    rw [hs] at hr
    by_cases hk : p.kept L (notBelowZero L) v = true
    · simp only [hk, if_true, Option.some.injEq] at hr
      rw [← hr]
      exact hkept v hk
    · simp only [hk, Bool.false_eq_true, if_false] at hr
      exact hd t p hunit _ hr

theorem unitResolved_resolved {D F : Type} (L : Libc D F) (E : ColorMap F) (t : type)
    (opts : List GetoptResult) (var : Var) (hv : var ∈ callVars t) :
    UnitResolved L E t opts var ((resolvedVars L E t opts).val var) := by
  intro p hp _
  subst hp
  rw [resolvedVars_float L E t opts p hv]
  rfl

/-- C4, in the form that holds: no range is checked and no value is rejected for
its value. On a command line that passes validation (recognised options, neither
`--version` nor `--help`, a valid format, at least two samples, a valid family),
whatever the values of the parameter options, the generator is invoked when the
sample count is at most 715827882, so that `3 * n` fits an `int`; and on every
invocation each parameter documented as lying in [0,1] (contrast, saturation,
brightness, warmth, lightness) that is passed is the supplied value when its
option is given with a value that is not below zero, also one above 1, and
otherwise the default of the family. So each of them is not below zero when no
default constant of those parameters is. -/
theorem unit_parameters_not_below_zero {D F : Type} (L : Libc D F) (E : ColorMap F)
    (argv0 : String) (opts : List GetoptResult) (h : Validated L opts) :
    ∃ t, typeOfArg (selectedFamily opts) = some t ∧
      (sampleCount L opts ≤ 715827882 →
        ∃ call buffer, (main L E argv0 opts).generated = [(call, buffer)]) ∧
      (∀ call buffer, (call, buffer) ∈ (main L E argv0 opts).generated →
        List.Forall₂ (UnitResolved L E t opts) (callVars t) call.args ∧
        (DefaultsNotBelowZero L E (sampleCount L opts) →
          List.Forall₂ (UnitNotBelowZero L) (callVars t) call.args)) := by
  obtain ⟨t, ht, hall, hbuilt⟩ := generated_of_validated L E argv0 opts h
  refine ⟨t, ht, ?_, ?_⟩
  · intro hn
    have hb := colormapSize_le_max (sampleCount L opts) (by have := h.2.2.2.1; omega) hn
    exact ⟨_, _, (hbuilt hb).2⟩
  · intro call buffer hmem
    rw [hall call buffer hmem, dispatch_args]
    exact ⟨forall₂_map_of_forall _ _ _ (unitResolved_resolved L E t opts),
      fun hd => forall₂_map_of_forall _ _ _ (unitNotBelowZero_resolved L E t opts hd)⟩

/-- On `--type=brewer-qualitative --contrast=0 --saturation=-3 --brightness=2
--n=2` the contrast 0 and the brightness 2 are passed as supplied and the
saturation is replaced by the default 1. -/
theorem unit_parameters_not_below_zero_witness :
    Validated Sample.libc [⟨OptChar.t, "brewer-qualitative"⟩, ⟨OptChar.c, "0"⟩,
      ⟨OptChar.s, "-3"⟩, ⟨OptChar.b, "2"⟩, ⟨OptChar.n, "2"⟩] ∧
    DefaultsNotBelowZero Sample.libc (Sample.colorMap 0)
      (sampleCount Sample.libc [⟨OptChar.t, "brewer-qualitative"⟩, ⟨OptChar.c, "0"⟩,
        ⟨OptChar.s, "-3"⟩, ⟨OptChar.b, "2"⟩, ⟨OptChar.n, "2"⟩]) ∧
    (main Sample.libc (Sample.colorMap 0) "gencolormap"
      [⟨OptChar.t, "brewer-qualitative"⟩, ⟨OptChar.c, "0"⟩, ⟨OptChar.s, "-3"⟩,
        ⟨OptChar.b, "2"⟩, ⟨OptChar.n, "2"⟩]).generated =
      [(Call.BrewerQualitative 2 (Sample.Num.int 0) (Sample.Num.int 1) (Sample.Num.int 0)
          (Sample.Num.int 1) (Sample.Num.int 2), List.replicate 6 0)] ∧
    ∃ t, typeOfArg (selectedFamily [⟨OptChar.t, "brewer-qualitative"⟩, ⟨OptChar.c, "0"⟩,
        ⟨OptChar.s, "-3"⟩, ⟨OptChar.b, "2"⟩, ⟨OptChar.n, "2"⟩]) = some t ∧
      (sampleCount Sample.libc [⟨OptChar.t, "brewer-qualitative"⟩, ⟨OptChar.c, "0"⟩,
          ⟨OptChar.s, "-3"⟩, ⟨OptChar.b, "2"⟩, ⟨OptChar.n, "2"⟩] ≤ 715827882 →
        ∃ call buffer, (main Sample.libc (Sample.colorMap 0) "gencolormap"
          [⟨OptChar.t, "brewer-qualitative"⟩, ⟨OptChar.c, "0"⟩, ⟨OptChar.s, "-3"⟩,
            ⟨OptChar.b, "2"⟩, ⟨OptChar.n, "2"⟩]).generated = [(call, buffer)]) ∧
      (∀ call buffer, (call, buffer) ∈ (main Sample.libc (Sample.colorMap 0) "gencolormap"
          [⟨OptChar.t, "brewer-qualitative"⟩, ⟨OptChar.c, "0"⟩, ⟨OptChar.s, "-3"⟩,
            ⟨OptChar.b, "2"⟩, ⟨OptChar.n, "2"⟩]).generated →
        List.Forall₂ (UnitResolved Sample.libc (Sample.colorMap 0) t
          [⟨OptChar.t, "brewer-qualitative"⟩, ⟨OptChar.c, "0"⟩, ⟨OptChar.s, "-3"⟩,
            ⟨OptChar.b, "2"⟩, ⟨OptChar.n, "2"⟩]) (callVars t) call.args ∧
        (DefaultsNotBelowZero Sample.libc (Sample.colorMap 0)
            (sampleCount Sample.libc [⟨OptChar.t, "brewer-qualitative"⟩, ⟨OptChar.c, "0"⟩,
              ⟨OptChar.s, "-3"⟩, ⟨OptChar.b, "2"⟩, ⟨OptChar.n, "2"⟩]) →
          List.Forall₂ (UnitNotBelowZero Sample.libc) (callVars t) call.args)) :=
  ⟨by decide, by decide, by decide,
    unit_parameters_not_below_zero Sample.libc (Sample.colorMap 0) "gencolormap"
      [⟨OptChar.t, "brewer-qualitative"⟩, ⟨OptChar.c, "0"⟩, ⟨OptChar.s, "-3"⟩,
        ⟨OptChar.b, "2"⟩, ⟨OptChar.n, "2"⟩] (by decide)⟩

/-! ## Order of the options -/

theorem parseLoop_cons {D F : Type} (L : Libc D F) (s : Vars F) (o : GetoptResult)
    (rest : List GetoptResult) :
    parseLoop L s (o :: rest) = (step L s o).bind (fun s1 => parseLoop L s1 rest) := by
  cases hs : step L s o <;> simp [parseLoop, hs]

set_option maxHeartbeats 1600000 in
theorem step_comm {D F : Type} (L : Libc D F) (s : Vars F) (x y : GetoptResult)
    (hxy : x.c ≠ y.c) :
    (step L s x).bind (fun s1 => step L s1 y) = (step L s y).bind (fun s1 => step L s1 x) := by
  obtain ⟨cx, ax⟩ := x
  obtain ⟨cy, ay⟩ := y
  cases cx <;> cases cy <;> first | exact absurd rfl hxy | rfl

theorem parseLoop_perm {D F : Type} (L : Libc D F) {l₁ l₂ : List GetoptResult}
    (hp : l₁.Perm l₂) :
    (l₁.map GetoptResult.c).Nodup → ∀ s : Vars F, parseLoop L s l₁ = parseLoop L s l₂ := by
  induction hp with
  | nil => intro _ s; rfl
  | cons x _ ih =>
    intro hnd s
    rw [parseLoop_cons, parseLoop_cons]
    rw [List.map_cons, List.nodup_cons] at hnd
    cases step L s x with
    | none => rfl
    | some s1 => exact ih hnd.2 s1
  | swap x y l =>
    intro hnd s
    have hxy : x.c ≠ y.c := by
      intro hc
      simp [List.nodup_cons, hc] at hnd
    rw [parseLoop_cons, parseLoop_cons]
    have h1 : (step L s y).bind (fun s1 => parseLoop L s1 (x :: l)) =
        ((step L s y).bind (fun s1 => step L s1 x)).bind (fun s2 => parseLoop L s2 l) := by
      cases step L s y with
      | none => rfl
      | some s1 => simp [parseLoop_cons]
    have h2 : (step L s x).bind (fun s1 => parseLoop L s1 (y :: l)) =
        ((step L s x).bind (fun s1 => step L s1 y)).bind (fun s2 => parseLoop L s2 l) := by
      cases step L s x with
      | none => rfl
      | some s1 => simp [parseLoop_cons]
    rw [h1, h2, step_comm L s x y hxy]
  | trans h₁ _ ih₁ ih₂ =>
    intro hnd s
    have hnd2 := ((h₁.map GetoptResult.c).nodup_iff).mp hnd
    exact (ih₁ hnd s).trans (ih₂ hnd2 s)

theorem parseLoop_append {D F : Type} (L : Libc D F) (l₁ l₂ : List GetoptResult) :
    ∀ s : Vars F,
      parseLoop L s (l₁ ++ l₂) = (parseLoop L s l₁).bind (fun s1 => parseLoop L s1 l₂) := by
  induction l₁ with
  | nil => intro s; rfl
  | cons o rest ih =>
    intro s
    rw [List.cons_append, parseLoop_cons, parseLoop_cons]
    cases step L s o with
    | none => rfl
    | some s1 => exact ih s1

theorem main_swap {D F : Type} (L : Libc D F) (E : ColorMap F) (argv0 : String)
    (front back : List GetoptResult) (x y : GetoptResult) (hxy : x.c ≠ y.c) :
    main L E argv0 (front ++ x :: y :: back) = main L E argv0 (front ++ y :: x :: back) := by
  have hpair : ∀ (s : Vars F) (a b : GetoptResult),
      parseLoop L s (a :: b :: back) =
        ((step L s a).bind (fun s1 => step L s1 b)).bind (fun s2 => parseLoop L s2 back) := by
    intro s a b
    rw [parseLoop_cons]
    cases step L s a with
    | none => rfl
    | some s1 => simp [parseLoop_cons]
  have hloop : ∀ s : Vars F,
      parseLoop L s (x :: y :: back) = parseLoop L s (y :: x :: back) := by
    intro s
    rw [hpair, hpair, step_comm L s x y hxy]
  unfold main
  rw [parseLoop_append, parseLoop_append]
  simp only [hloop]

theorem main_perm {D F : Type} (L : Libc D F) (E : ColorMap F) (argv0 : String)
    {l₁ l₂ : List GetoptResult} (hp : l₁.Perm l₂) (hnd : (l₁.map GetoptResult.c).Nodup) :
    main L E argv0 l₁ = main L E argv0 l₂ := by
  unfold main
  rw [parseLoop_perm L hp hnd]

/-! ## C6 -/

/-- C6 does not hold at `--hue=nan`: NaN is not a non-negative value, so the reference
definition of the claim gives the default hue of BrewerSequential; `main` passes
NaN. -/
theorem nan_hue_is_passed :
    supplied Sample.libc [⟨OptChar.h, "nan"⟩] Param.hue = some Sample.Num.nan ∧
    Sample.geZero Sample.Num.nan = false ∧
    claimedValue Sample.libc Sample.geZero (Sample.colorMap 0) type.brewer_seq 256
      [⟨OptChar.h, "nan"⟩] Param.hue = some (Sample.colorMap 0).BrewerSequentialDefaultHue ∧
    (Sample.colorMap 0).BrewerSequentialDefaultHue = Sample.Num.int 0 ∧
    (main Sample.libc (Sample.colorMap 0) "gencolormap"
      [⟨OptChar.h, "nan"⟩]).generated.map Prod.fst =
        [Call.BrewerSequential 256 Sample.Num.nan (Sample.Num.int 1) (Sample.Num.int 1)
          (Sample.Num.int 1) (Sample.Num.int 0)] := by
  decide

theorem isResolved_resolved {D F : Type} (L : Libc D F) (E : ColorMap F) (t : type)
    (opts : List GetoptResult) (var : Var) (hv : var ∈ callVars t) :
    IsResolved L E t opts var ((resolvedVars L E t opts).val var) := by
  intro p hp _
  subst hp
  rw [resolvedVars_float L E t opts p hv]
  rfl

/-- C6, in the form that holds: on a command line that passes validation the
generator of the family in force is invoked when the vector can be built, and on
every invocation every scalar parameter passed, the contrast apart, is the
supplied value (hue and divergence converted to radians) when the
option is given with a value that is not below zero, NaN included, or for
rotations and periods with a value that is not NaN; otherwise it is the default
constant of that family for that parameter. And the run does not depend on the
order of distinct options: exchanging two neighbouring options with different
letters leaves it unchanged, and so does any rearrangement when no option is
given twice. -/
theorem parameter_resolution {D F : Type} (L : Libc D F) (E : ColorMap F)
    (argv0 : String) (opts : List GetoptResult) (h : Validated L opts) :
    (∃ t, typeOfArg (selectedFamily opts) = some t ∧
      (colormapSize (sampleCount L opts) ≤ vectorMaxSize →
        ∃ call buffer, (main L E argv0 opts).generated = [(call, buffer)]) ∧
      (∀ call buffer, (call, buffer) ∈ (main L E argv0 opts).generated →
        List.Forall₂ (IsResolved L E t opts) (callVars t) call.args)) ∧
    (∀ (front back : List GetoptResult) (x y : GetoptResult),
      opts = front ++ x :: y :: back → x.c ≠ y.c →
      main L E argv0 (front ++ y :: x :: back) = main L E argv0 opts) ∧
    (∀ opts2 : List GetoptResult, opts.Perm opts2 → (opts.map GetoptResult.c).Nodup →
      main L E argv0 opts2 = main L E argv0 opts) := by
  refine ⟨?_, ?_, ?_⟩
  · obtain ⟨t, ht, hall, hbuilt⟩ := generated_of_validated L E argv0 opts h
    refine ⟨t, ht, fun hb => ⟨_, _, (hbuilt hb).2⟩, ?_⟩
    intro call buffer hmem
    rw [hall call buffer hmem, dispatch_args]
    exact forall₂_map_of_forall _ _ _ (isResolved_resolved L E t opts)
  · intro front back x y hopts hxy
    rw [hopts]
    exact (main_swap L E argv0 front back x y hxy).symm
  · intro opts2 hp hnd
    exact (main_perm L E argv0 hp hnd).symm

/-- On `--type=cubehelix --hue=90 --rotations=-3 --saturation=-1 --n=2` the hue
is 90 degrees in radians, the negative rotations are kept, the saturation is the
CubeHelix default and the gamma, not given, is the CubeHelix default; the order
of the options does not matter. -/
theorem parameter_resolution_witness :
    Validated Sample.libc [⟨OptChar.t, "cubehelix"⟩, ⟨OptChar.h, "90"⟩, ⟨OptChar.r, "-3"⟩,
      ⟨OptChar.s, "-1"⟩, ⟨OptChar.n, "2"⟩] ∧
    (main Sample.libc (Sample.colorMap 0) "gencolormap"
      [⟨OptChar.t, "cubehelix"⟩, ⟨OptChar.h, "90"⟩, ⟨OptChar.r, "-3"⟩, ⟨OptChar.s, "-1"⟩,
        ⟨OptChar.n, "2"⟩]).generated =
      [(Call.CubeHelix 2 (Sample.Num.rad 90) (Sample.Num.int (-3))
          (Sample.colorMap 0).CubeHelixDefaultSaturation
          (Sample.colorMap 0).CubeHelixDefaultGamma, List.replicate 6 0)] ∧
    main Sample.libc (Sample.colorMap 0) "gencolormap"
      [⟨OptChar.n, "2"⟩, ⟨OptChar.s, "-1"⟩, ⟨OptChar.r, "-3"⟩, ⟨OptChar.h, "90"⟩,
        ⟨OptChar.t, "cubehelix"⟩] =
    main Sample.libc (Sample.colorMap 0) "gencolormap"
      [⟨OptChar.t, "cubehelix"⟩, ⟨OptChar.h, "90"⟩, ⟨OptChar.r, "-3"⟩, ⟨OptChar.s, "-1"⟩,
        ⟨OptChar.n, "2"⟩] :=
  ⟨by decide, by decide,
    (parameter_resolution Sample.libc (Sample.colorMap 0) "gencolormap"
      [⟨OptChar.t, "cubehelix"⟩, ⟨OptChar.h, "90"⟩, ⟨OptChar.r, "-3"⟩, ⟨OptChar.s, "-1"⟩,
        ⟨OptChar.n, "2"⟩] (by decide)).2.2 _
      (List.reverse_perm _).symm (by decide)⟩

/-! ## C10 -/

theorem isResolvedRange_resolved {D F : Type} (L : Libc D F) (E : ColorMap F) (t : type)
    (opts : List GetoptResult) (ht : t ∈ twoRangeFamilies) :
    IsResolvedRange L E t opts (resolvedVars L E t opts).range := by
  have hv : Var.param Param.range ∈ callVars t := by
    revert t
    decide
  have hdef : defaultOf E t (sampleCount L opts) Param.range = defaultLightnessRange E t := by
    simp only [twoRangeFamilies, List.mem_cons, List.mem_singleton, List.not_mem_nil,
      or_false] at ht
    rcases ht with rfl | rfl | rfl <;> rfl
  have hr := resolvedVars_float L E t opts Param.range hv
  unfold IsResolvedRange
  unfold claimedValue at hr
  cases hs : supplied L opts Param.range with
  | none =>
    rw [hs] at hr
    simp only
    rw [← hdef]
    exact hr
  | some v =>
    rw [hs] at hr
    simp only
    by_cases hlt : L.ltZero v = true
    · simp only [Param.kept, notBelowZero, hlt, Bool.not_true, Bool.false_eq_true,
        if_false] at hr
      simp only [hlt, if_true]
      rw [← hdef]
      exact hr
    · have hlt2 : L.ltZero v = false := by simpa using hlt
      simp only [Param.kept, notBelowZero, hlt2, Bool.not_false, if_true,
        Option.some.injEq] at hr
      simp only [hlt2, Bool.false_eq_true, if_false]
      exact hr.symm

theorem callVars_nodup : ∀ t : type, t ∉ twoRangeFamilies → (callVars t).Nodup := by
  decide

/-- C10: on a command line that passes validation the generator of the family in
force is invoked when the vector can be built, and on every invocation the
arguments are the values of the variables that the call passes, position by
position. For pusequential-lightness, pusequential-rainbow and
pudiverging-lightness the lightness range and the saturation range are both the
one resolved `--range` value: the supplied one, or the constant
`DefaultLightnessRange` of the family when `--range` is unset or below zero. For
every other family no variable is passed in two positions. -/
theorem range_passed_twice {D F : Type} (L : Libc D F) (E : ColorMap F)
    (argv0 : String) (opts : List GetoptResult) (h : Validated L opts) :
    ∃ t, typeOfArg (selectedFamily opts) = some t ∧
      (colormapSize (sampleCount L opts) ≤ vectorMaxSize →
        ∃ call buffer, (main L E argv0 opts).generated = [(call, buffer)]) ∧
      (∀ call buffer, (call, buffer) ∈ (main L E argv0 opts).generated →
        call.args = (callVars t).map (resolvedVars L E t opts).val ∧
        (t ∈ twoRangeFamilies →
          ∃ r, call.lightnessRange = some r ∧ call.saturationRange = some r ∧
            IsResolvedRange L E t opts r) ∧
        (t ∉ twoRangeFamilies → (callVars t).Nodup)) := by
  obtain ⟨t, ht, hall, hbuilt⟩ := generated_of_validated L E argv0 opts h
  refine ⟨t, ht, fun hb => ⟨_, _, (hbuilt hb).2⟩, ?_⟩
  intro call buffer hin
  rw [hall call buffer hin]
  refine ⟨dispatch_args t _, ?_, ?_⟩
  · intro hmem
    refine ⟨(resolvedVars L E t opts).range, ?_, ?_, isResolvedRange_resolved L E t opts hmem⟩
    · simp only [twoRangeFamilies, List.mem_cons, List.mem_singleton, List.not_mem_nil,
        or_false] at hmem
      rcases hmem with rfl | rfl | rfl <;> rfl
    · simp only [twoRangeFamilies, List.mem_cons, List.mem_singleton, List.not_mem_nil,
        or_false] at hmem
      rcases hmem with rfl | rfl | rfl <;> rfl
  · exact callVars_nodup t

/-- On `--type=pusequential-rainbow --range=3 --n=2` both range arguments are 3;
on `--type=pudiverging-lightness --range=-3 --n=2` both are the default. -/
theorem range_passed_twice_witness :
    Validated Sample.libc
      [⟨OptChar.t, "pusequential-rainbow"⟩, ⟨OptChar.R, "3"⟩, ⟨OptChar.n, "2"⟩] ∧
    (main Sample.libc (Sample.colorMap 0) "gencolormap"
      [⟨OptChar.t, "pusequential-rainbow"⟩, ⟨OptChar.R, "3"⟩, ⟨OptChar.n, "2"⟩]).generated =
      [(Call.PUSequentialRainbow 2 (Sample.Num.int 3) (Sample.Num.int 3) (Sample.Num.int 0)
          (Sample.Num.int (-1)) (Sample.Num.int 1), List.replicate 6 0)] ∧
    (main Sample.libc (Sample.colorMap 0) "gencolormap"
      [⟨OptChar.t, "pudiverging-lightness"⟩, ⟨OptChar.R, "-3"⟩,
        ⟨OptChar.n, "2"⟩]).generated.map Prod.fst =
      [Call.PUDivergingLightness 2
        (Sample.colorMap 0).PUDivergingLightnessDefaultLightnessRange
        (Sample.colorMap 0).PUDivergingLightnessDefaultLightnessRange
        (Sample.Num.int 1) (Sample.Num.int 0) (Sample.Num.int 1)] ∧
    ∃ t,
      typeOfArg (selectedFamily
        [⟨OptChar.t, "pusequential-rainbow"⟩, ⟨OptChar.R, "3"⟩, ⟨OptChar.n, "2"⟩]) = some t ∧
      (colormapSize (sampleCount Sample.libc
          [⟨OptChar.t, "pusequential-rainbow"⟩, ⟨OptChar.R, "3"⟩, ⟨OptChar.n, "2"⟩]) ≤
          vectorMaxSize →
        ∃ call buffer, (main Sample.libc (Sample.colorMap 0) "gencolormap"
          [⟨OptChar.t, "pusequential-rainbow"⟩, ⟨OptChar.R, "3"⟩,
            ⟨OptChar.n, "2"⟩]).generated = [(call, buffer)]) ∧
      (∀ call buffer, (call, buffer) ∈ (main Sample.libc (Sample.colorMap 0) "gencolormap"
          [⟨OptChar.t, "pusequential-rainbow"⟩, ⟨OptChar.R, "3"⟩,
            ⟨OptChar.n, "2"⟩]).generated →
        call.args = (callVars t).map (resolvedVars Sample.libc (Sample.colorMap 0) t
          [⟨OptChar.t, "pusequential-rainbow"⟩, ⟨OptChar.R, "3"⟩, ⟨OptChar.n, "2"⟩]).val ∧
        (t ∈ twoRangeFamilies →
          ∃ r, call.lightnessRange = some r ∧ call.saturationRange = some r ∧
            IsResolvedRange Sample.libc (Sample.colorMap 0) t
              [⟨OptChar.t, "pusequential-rainbow"⟩, ⟨OptChar.R, "3"⟩, ⟨OptChar.n, "2"⟩] r) ∧
        (t ∉ twoRangeFamilies → (callVars t).Nodup)) :=
  ⟨by decide, by decide, by decide,
    range_passed_twice Sample.libc (Sample.colorMap 0) "gencolormap"
      [⟨OptChar.t, "pusequential-rainbow"⟩, ⟨OptChar.R, "3"⟩, ⟨OptChar.n, "2"⟩] (by decide)⟩

/-! ## C11 -/

theorem resolved_contrast_default {D F : Type} (L : Libc D F) (E : ColorMap F) (t : type)
    (opts : List GetoptResult) (hv : Var.param Param.contrast ∈ callVars t)
    (hc : ContrastUnsetOrNegative L opts) :
    defaultOf E t (sampleCount L opts) Param.contrast =
      some (resolvedVars L E t opts).contrast := by
  have hr := resolvedVars_float L E t opts Param.contrast hv
  unfold claimedValue at hr
  cases hs : supplied L opts Param.contrast with
  | none =>
    rw [hs] at hr
    exact hr
  | some v =>
    rw [hs] at hr
    have hlt : L.ltZero v = true := hc v (by rw [hs]; rfl)
    simpa [Param.kept, notBelowZero, hlt] using hr

theorem defaultContrastByCount_eq {F : Type} (E : ColorMap F) (a : String) (t : type)
    (n : Int) (ha : a ∈ brewerNames) (ht : typeOfArg a = some t) (hn : 2 ≤ n) :
    Var.param Param.contrast ∈ callVars t ∧
      defaultContrastByCount E a n = defaultOf E t n Param.contrast ∧
      ∀ s : Vars F, (dispatch t s).contrast = some s.contrast := by
  simp only [brewerNames, List.mem_cons, List.mem_singleton, List.not_mem_nil,
    or_false] at ha
  rcases ha with rfl | rfl | rfl
  · obtain rfl : type.brewer_seq = t := Option.some.inj ((by decide : _ = _).symm.trans ht)
    refine ⟨by decide, ?_, fun _ => rfl⟩
    by_cases h9 : n ≤ 9
    · simp [defaultContrastByCount, defaultOf, hn, h9]
    · have h10 : 10 ≤ n := by omega
      simp [defaultContrastByCount, defaultOf, h9, h10]
  · obtain rfl : type.brewer_div = t := Option.some.inj ((by decide : _ = _).symm.trans ht)
    refine ⟨by decide, ?_, fun _ => rfl⟩
    by_cases h9 : n ≤ 9
    · simp [defaultContrastByCount, defaultOf, hn, h9]
    · have h10 : 10 ≤ n := by omega
      simp [defaultContrastByCount, defaultOf, h9, h10]
  · obtain rfl : type.brewer_qual = t := Option.some.inj ((by decide : _ = _).symm.trans ht)
    refine ⟨by decide, ?_, fun _ => rfl⟩
    simp [defaultContrastByCount, defaultOf, hn]

/-- C11: on a command line that passes validation and selects a Brewer family,
with `--contrast` not given or given below zero, the generator is invoked when
the vector can be built, and on every invocation the contrast passed to the
generator is, for brewer-sequential and brewer-diverging, the family's
`DefaultContrastForSmallN(n)` when `2 <= n <= 9` and the family's constant
`DefaultContrast` when `n >= 10`, and for brewer-qualitative
`BrewerQualitativeDefaultContrast` whatever `n >= 2` is. -/
theorem default_contrast_by_count {D F : Type} (L : Libc D F) (E : ColorMap F)
    (argv0 : String) (opts : List GetoptResult) (h : Validated L opts)
    (hb : selectedFamily opts ∈ brewerNames) (hc : ContrastUnsetOrNegative L opts) :
    (colormapSize (sampleCount L opts) ≤ vectorMaxSize →
      ∃ call buffer, (main L E argv0 opts).generated = [(call, buffer)]) ∧
    (∀ call buffer, (call, buffer) ∈ (main L E argv0 opts).generated →
      ∃ contrast, call.contrast = some contrast ∧
        defaultContrastByCount E (selectedFamily opts) (sampleCount L opts) =
          some contrast) := by
  obtain ⟨t, ht, hall, hbuilt⟩ := generated_of_validated L E argv0 opts h
  obtain ⟨hv, hdef, hcall⟩ :=
    defaultContrastByCount_eq E (selectedFamily opts) t (sampleCount L opts) hb ht h.2.2.2.1
  refine ⟨fun hfit => ⟨_, _, (hbuilt hfit).2⟩, ?_⟩
  intro call buffer hin
  rw [hall call buffer hin]
  refine ⟨(resolvedVars L E t opts).contrast, hcall _, ?_⟩
  rw [hdef]
  exact resolved_contrast_default L E t opts hv hc

/-- With the sample library, whose `DefaultContrastForSmallN` is 0 and whose
`DefaultContrast` is 1: `--type=brewer-diverging --contrast=-1` passes the
contrast 0 for `--n=9` and the contrast 1 for `--n=10`. -/
theorem default_contrast_by_count_witness :
    (Validated Sample.libc
        [⟨OptChar.t, "brewer-diverging"⟩, ⟨OptChar.c, "-1"⟩, ⟨OptChar.n, "9"⟩] ∧
      (main Sample.libc (Sample.colorMap 0) "gencolormap"
        [⟨OptChar.t, "brewer-diverging"⟩, ⟨OptChar.c, "-1"⟩,
          ⟨OptChar.n, "9"⟩]).generated.map Prod.fst =
        [Call.BrewerDiverging 9 (Sample.Num.int 0) (Sample.Num.int 1) (Sample.Num.int 0)
          (Sample.Num.int 1) (Sample.Num.int 1) (Sample.Num.int 0)] ∧
      (colormapSize (sampleCount Sample.libc [⟨OptChar.t, "brewer-diverging"⟩,
          ⟨OptChar.c, "-1"⟩, ⟨OptChar.n, "9"⟩]) ≤ vectorMaxSize →
        ∃ call buffer, (main Sample.libc (Sample.colorMap 0) "gencolormap"
          [⟨OptChar.t, "brewer-diverging"⟩, ⟨OptChar.c, "-1"⟩,
            ⟨OptChar.n, "9"⟩]).generated = [(call, buffer)]) ∧
      (∀ call buffer, (call, buffer) ∈ (main Sample.libc (Sample.colorMap 0) "gencolormap"
          [⟨OptChar.t, "brewer-diverging"⟩, ⟨OptChar.c, "-1"⟩,
            ⟨OptChar.n, "9"⟩]).generated →
        ∃ contrast, call.contrast = some contrast ∧
          defaultContrastByCount (Sample.colorMap 0)
            (selectedFamily [⟨OptChar.t, "brewer-diverging"⟩, ⟨OptChar.c, "-1"⟩,
              ⟨OptChar.n, "9"⟩])
            (sampleCount Sample.libc [⟨OptChar.t, "brewer-diverging"⟩, ⟨OptChar.c, "-1"⟩,
              ⟨OptChar.n, "9"⟩]) = some contrast)) ∧
    (main Sample.libc (Sample.colorMap 0) "gencolormap"
      [⟨OptChar.t, "brewer-diverging"⟩, ⟨OptChar.c, "-1"⟩,
        ⟨OptChar.n, "10"⟩]).generated.map Prod.fst =
      [Call.BrewerDiverging 10 (Sample.Num.int 0) (Sample.Num.int 1) (Sample.Num.int 1)
        (Sample.Num.int 1) (Sample.Num.int 1) (Sample.Num.int 0)] :=
  ⟨⟨by decide, by decide,
      default_contrast_by_count Sample.libc (Sample.colorMap 0) "gencolormap"
        [⟨OptChar.t, "brewer-diverging"⟩, ⟨OptChar.c, "-1"⟩, ⟨OptChar.n, "9"⟩]
        (by decide) (by decide) (by decide)⟩,
    by decide⟩

end GenColorMap
